import Mathlib

/-!
Verification development for the Reforge SQLite → PostgreSQL migration script
(src/scripts/migrate_sqlite_to_postgres.py).

The script is embedded shallowly:
* SQLite source rows are Lean structures whose fields mirror the columns the
  script reads; nullable columns are `Option`-typed.
* The generated UUIDs are modelled as freshly drawn natural-number tokens
  (the script's `generate_uuid` draws a random UUIDv4; only freshness is
  relevant to the logic).
* The PostgreSQL connection is modelled as a pair of row lists: `committed`
  rows (durable) and `pending` rows (executed inside the currently open
  transaction).  `cursor.execute(INSERT ...)` appends to `pending` when the
  target accepts the row, `commit` moves `pending` to `committed`,
  `rollback` discards `pending`.
* Whether the target raises `psycopg2.Error` for a given INSERT is decided
  by an environment oracle `ok : Nat → Bool`, indexed by the position of the
  row inside the table's row loop; likewise `del_ok` for the DELETE
  statements of `clear_postgres_tables`, and the success of the two
  `connect_*` calls is a pair of booleans.
* `datetime.utcnow()` is modelled by a parameter `now` (one value per run;
  the script's sub-second drift between calls is irrelevant here).
* Each executed SQL statement is also recorded in an event trace
  (`MEvent`), which the temporal claims are stated over.
* The strings appended to `stats.errors` are modelled by the inductive
  `MigError`, one constructor per f-string in the script, carrying exactly
  the interpolated values.
-/

namespace Reforge

/-- Python `v or default` for an optional string column: `None` and the empty
string are falsy, every other string is truthy.  Mirrors
`row["role"] or "user"` and `row["status"] or "completed"`. -/
def pyStrOr (v : Option String) (d : String) : String :=
  match v with
  | none => d
  | some s => if s = "" then d else s

/-- Python `bool(...)` applied to a nullable integer column:
`bool(None) = False`, `bool(0) = False`, every other integer is `True`.
Mirrors `bool(row["is_active"])` etc. -/
def pyBool : Option Int → Bool
  | none => false
  | some n => n != 0

/-- Python truthiness test `if row[col]:` on a nullable integer column
(`None` and `0` are falsy). -/
def pyIntTruthy : Option Int → Bool
  | none => false
  | some n => n != 0

/-- A Python `datetime` value as far as this script observes it. -/
structure Datetime where
  year : Nat
  month : Nat
  day : Nat
  hour : Nat
  minute : Nat
  second : Nat
deriving DecidableEq, Repr

/-- Python `parsed or datetime.utcnow()`: `datetime` objects are always
truthy, so the parse result wins whenever parsing succeeded. -/
def pyDtOr (v : Option Datetime) (d : Datetime) : Datetime :=
  v.getD d

def isLeapYear (y : Nat) : Bool :=
  (y % 4 == 0 && y % 100 != 0) || y % 400 == 0

def daysInMonth (y m : Nat) : Nat :=
  if m == 2 then (if isLeapYear y then 29 else 28)
  else if m == 4 || m == 6 || m == 9 || m == 11 then 30
  else 31

def digitVal (c : Char) : Nat := c.toNat - 48

/-- `%Y` of `strptime`: exactly four digits. -/
def read4Digits : List Char → Option (Nat × List Char)
  | a :: b :: c :: d :: rest =>
    if a.isDigit && b.isDigit && c.isDigit && d.isDigit then
      some (((digitVal a * 10 + digitVal b) * 10 + digitVal c) * 10 + digitVal d, rest)
    else none
  | _ => none

/-- A greedy one-or-two-digit field (`%m`, `%H`, `%M`, `%S`); since the
character following each such field in the format is never a digit,
greediness agrees with the regex backtracking `strptime` uses. -/
def readDigits12 : List Char → Option (Nat × List Char)
  | a :: b :: rest =>
    if a.isDigit then
      if b.isDigit then some (digitVal a * 10 + digitVal b, rest)
      else some (digitVal a, b :: rest)
    else none
  | [a] => if a.isDigit then some (digitVal a, []) else none
  | [] => none

/-- `%d`: like `readDigits12`, with the extra ` [1-9]` alternative of
CPython's day regex (a single space followed by a non-zero digit). -/
def readDay : List Char → Option (Nat × List Char)
  | ' ' :: c :: rest =>
    if c.isDigit && c != '0' then some (digitVal c, rest) else none
  | cs => readDigits12 cs

def expectChar (c : Char) : List Char → Option (List Char)
  | x :: rest => if x == c then some rest else none
  | [] => none

/-- ASCII approximation of the regex class the whitespace of the format is
compiled to. -/
def isPySpace (c : Char) : Bool :=
  c == ' ' || c == '\t' || c == '\n' || c == '\r' || c == '\x0b' || c == '\x0c'

def skipSpaces : List Char → List Char
  | c :: rest => if isPySpace c then skipSpaces rest else c :: rest
  | [] => []

/-- One-or-more whitespace characters (the space of the format string). -/
def readWs1 : List Char → Option (List Char)
  | c :: rest => if isPySpace c then some (skipSpaces rest) else none
  | [] => none

/-- `datetime.strptime(s, "%Y-%m-%d %H:%M:%S")`, returning `none` where the
Python call raises `ValueError` (regex mismatch, unconverted trailing data,
or a field out of the range the `datetime` constructor accepts). -/
def strptime_ymd_hms (s : String) : Option Datetime :=
  (read4Digits s.toList).bind fun yc =>
  (expectChar '-' yc.2).bind fun cs1 =>
  (readDigits12 cs1).bind fun mc =>
  (expectChar '-' mc.2).bind fun cs2 =>
  (readDay cs2).bind fun dc =>
  (readWs1 dc.2).bind fun cs3 =>
  (readDigits12 cs3).bind fun hc =>
  (expectChar ':' hc.2).bind fun cs4 =>
  (readDigits12 cs4).bind fun mic =>
  (expectChar ':' mic.2).bind fun cs5 =>
  (readDigits12 cs5).bind fun sc =>
  if sc.2.isEmpty ∧ 1 ≤ yc.1 ∧ 1 ≤ mc.1 ∧ mc.1 ≤ 12 ∧ 1 ≤ dc.1 ∧
      dc.1 ≤ daysInMonth yc.1 mc.1 ∧ hc.1 ≤ 23 ∧ mic.1 ≤ 59 ∧ sc.1 ≤ 59 then
    some ⟨yc.1, mc.1, dc.1, hc.1, mic.1, sc.1⟩
  else none

/-- `parse_sqlite_datetime`: `if not dt_str: return None` (covering `None`
and the empty string), then `strptime` under `try/except` returning `None`
on failure. -/
def parse_sqlite_datetime (dt_str : Option String) : Option Datetime :=
  match dt_str with
  | none => none
  | some s => if s = "" then none else strptime_ymd_hms s

/-! ## Source rows (SQLite), one structure per table, fields as the script
reads them.  Legacy primary keys and foreign keys are `Int`; nullable
columns are `Option`-typed. -/

structure SqliteUser where
  id : Int
  username : String
  email : String
  password_hash : String
  role : Option String
  is_active : Option Int
  created_at : Option String
deriving DecidableEq, Repr

structure SqliteInviteCode where
  id : Int
  code : String
  created_by_user_id : Option Int
  is_used : Option Int
  created_at : Option String
  used_at : Option String
deriving DecidableEq, Repr

structure SqlitePattern where
  id : Int
  title : String
  description : Option String
  created_at : Option String
deriving DecidableEq, Repr

structure SqliteProblem where
  id : Int
  title : String
  source : String
  url : Option String
  difficulty : String
  created_at : Option String
deriving DecidableEq, Repr

structure SqliteProblemPattern where
  problem_id : Int
  pattern_id : Int
deriving DecidableEq, Repr

structure SqliteSession where
  id : Int
  user_id : Int
  title : String
  session_type : String
  status : String
  total_problems : Int
  completed_problems : Int
  elapsed_time_seconds : Int
  timer_state : Option String
  timer_last_updated_at : Option String
  started_at : Option String
  completed_at : Option String
  created_at : Option String
deriving DecidableEq, Repr

structure SqliteSessionProblem where
  session_id : Int
  problem_id : Int
  order_index : Int
  is_completed : Option Int
deriving DecidableEq, Repr

structure SqliteAttempt where
  id : Int
  user_id : Int
  problem_id : Int
  session_id : Option Int
  confidence_score : Option Int
  duration_seconds : Option Int
  outcome : Option String
  notes : Option String
  performed_at : Option String
  status : Option String
  elapsed_time_seconds : Option Int
  timer_state : Option String
  timer_last_updated_at : Option String
  started_at : Option String
deriving DecidableEq, Repr

structure SqliteUserProblemStat where
  user_id : Int
  problem_id : Int
  status : String
  confidence : Option Int
  avg_confidence : Option Int
  last_attempt_at : Option String
  total_attempts : Int
  avg_time_seconds : Option Int
  last_outcome : Option String
  recent_history_json : Option String
  next_review_at : Option String
  interval_days : Int
  ease_factor : Int
  review_count : Int
deriving DecidableEq, Repr

structure SqliteUserPatternStat where
  user_id : Int
  pattern_id : Int
  avg_confidence : Option Int
  times_revised : Int
deriving DecidableEq, Repr

/-- The whole SQLite source database, each table as a list of rows in
storage order (the order SQLite returns for a `SELECT` without
`ORDER BY`). -/
structure SqliteDb where
  users : List SqliteUser
  invite_codes : List SqliteInviteCode
  patterns : List SqlitePattern
  problems : List SqliteProblem
  problem_patterns : List SqliteProblemPattern
  sessions : List SqliteSession
  session_problems : List SqliteSessionProblem
  attempts : List SqliteAttempt
  user_problem_stats : List SqliteUserProblemStat
  user_pattern_stats : List SqliteUserPatternStat
deriving DecidableEq, Repr

/-! ## Target rows (PostgreSQL), exactly the parameter tuples of the INSERT
statements.  New ids are `Nat` tokens standing for the generated UUIDs;
timestamp parameters are `Option Datetime` (`none` = SQL NULL). -/

structure PgUser where
  id : Nat
  username : String
  email : String
  password_hash : String
  role : String
  is_active : Bool
  created_at : Option Datetime
deriving DecidableEq, Repr

structure PgInviteCode where
  id : Nat
  code : String
  created_by_user_id : Option Nat
  is_used : Bool
  created_at : Option Datetime
  used_at : Option Datetime
deriving DecidableEq, Repr

structure PgPattern where
  id : Nat
  title : String
  description : Option String
  created_at : Option Datetime
deriving DecidableEq, Repr

structure PgProblem where
  id : Nat
  title : String
  source : String
  url : Option String
  difficulty : String
  created_at : Option Datetime
deriving DecidableEq, Repr

structure PgProblemPattern where
  problem_id : Nat
  pattern_id : Nat
deriving DecidableEq, Repr

structure PgSession where
  id : Nat
  user_id : Nat
  title : String
  session_type : String
  status : String
  total_problems : Int
  completed_problems : Int
  elapsed_time_seconds : Int
  timer_state : Option String
  timer_last_updated_at : Option Datetime
  started_at : Option Datetime
  completed_at : Option Datetime
  created_at : Option Datetime
deriving DecidableEq, Repr

structure PgSessionProblem where
  session_id : Nat
  problem_id : Nat
  order_index : Int
  is_completed : Bool
deriving DecidableEq, Repr

structure PgAttempt where
  id : Nat
  user_id : Nat
  problem_id : Nat
  session_id : Option Nat
  confidence_score : Option Int
  duration_seconds : Option Int
  outcome : Option String
  notes : Option String
  performed_at : Option Datetime
  status : String
  elapsed_time_seconds : Option Int
  timer_state : Option String
  timer_last_updated_at : Option Datetime
  started_at : Option Datetime
deriving DecidableEq, Repr

structure PgUserProblemStat where
  user_id : Nat
  problem_id : Nat
  status : String
  confidence : Option Int
  avg_confidence : Option Int
  last_attempt_at : Option Datetime
  total_attempts : Int
  avg_time_seconds : Option Int
  last_outcome : Option String
  recent_history_json : Option String
  next_review_at : Option Datetime
  interval_days : Int
  ease_factor : Int
  review_count : Int
deriving DecidableEq, Repr

structure PgUserPatternStat where
  user_id : Nat
  pattern_id : Nat
  avg_confidence : Option Int
  times_revised : Int
deriving DecidableEq, Repr

/-- A row written to the target, tagged by table. -/
inductive PgRow where
  | user : PgUser → PgRow
  | inviteCode : PgInviteCode → PgRow
  | pattern : PgPattern → PgRow
  | problem : PgProblem → PgRow
  | problemPattern : PgProblemPattern → PgRow
  | session : PgSession → PgRow
  | sessionProblem : PgSessionProblem → PgRow
  | attempt : PgAttempt → PgRow
  | userProblemStat : PgUserProblemStat → PgRow
  | userPatternStat : PgUserPatternStat → PgRow
deriving DecidableEq, Repr

/-- The target table a row belongs to. -/
def rowTable : PgRow → String
  | .user _ => "users"
  | .inviteCode _ => "invite_codes"
  | .pattern _ => "patterns"
  | .problem _ => "problems"
  | .problemPattern _ => "problem_patterns"
  | .session _ => "sessions"
  | .sessionProblem _ => "session_problems"
  | .attempt _ => "attempts"
  | .userProblemStat _ => "user_problem_stats"
  | .userPatternStat _ => "user_pattern_stats"

/-- One entry of `MigrationStats.errors`, one constructor per `append`
call site in the script, carrying the values the f-string interpolates
(the `{e}` exception text is dropped: its content comes from the driver). -/
inductive MigError where
  | userInsert (username : String) : MigError
  | inviteCodeInsert (code : String) : MigError
  | patternInsert (title : String) : MigError
  | problemInsert (title : String) : MigError
  | problemPatternMissing (problem_id pattern_id : Int) : MigError
  | problemPatternInsert : MigError
  | sessionMissingUser (session_id : Int) : MigError
  | sessionInsert (title : String) : MigError
  | sessionProblemMissing (session_id problem_id : Int) : MigError
  | sessionProblemInsert : MigError
  | attemptMissing (attempt_id : Int) : MigError
  | attemptInsert (attempt_id : Int) : MigError
  | userProblemStatMissing (user_id problem_id : Int) : MigError
  | userProblemStatInsert : MigError
  | userPatternStatMissing (user_id pattern_id : Int) : MigError
  | userPatternStatInsert : MigError
deriving DecidableEq, Repr

/-- `MigrationStats`: the ten per-table success counters plus the error
list. -/
structure MigrationStats where
  users : Nat
  invite_codes : Nat
  patterns : Nat
  problems : Nat
  problem_patterns : Nat
  sessions : Nat
  session_problems : Nat
  attempts : Nat
  user_problem_stats : Nat
  user_pattern_stats : Nat
  errors : List MigError
deriving DecidableEq, Repr

def MigrationStats.init : MigrationStats :=
  ⟨0, 0, 0, 0, 0, 0, 0, 0, 0, 0, []⟩

/-- The PostgreSQL connection: rows already committed, and rows executed in
the currently open transaction. -/
structure PgState where
  committed : List PgRow
  pending : List PgRow
deriving DecidableEq, Repr

/-- A successfully executed INSERT buffers the row in the open
transaction. -/
def pgBuffer (s : PgState) (r : PgRow) : PgState :=
  { s with pending := s.pending ++ [r] }

/-- `pg_conn.rollback()`. -/
def pgRollback (s : PgState) : PgState :=
  { s with pending := [] }

/-- `pg_conn.commit()`. -/
def pgCommit (s : PgState) : PgState :=
  { committed := s.committed ++ s.pending, pending := [] }

/-- Lookup in one of the `Dict[int, str]` id maps (`.get`, returning
`None` when absent). -/
def idGet (m : List (Int × Nat)) (k : Int) : Option Nat :=
  match m with
  | [] => none
  | (k1, v) :: rest => if k1 = k then some v else idGet rest k

/-- Assignment `map[old_id] = new_id` (later writes shadow earlier
ones). -/
def idPut (m : List (Int × Nat)) (k : Int) (v : Nat) : List (Int × Nat) :=
  (k, v) :: m

/-- The per-run mutable state of `SQLiteToPostgresMigrator`: the six id
maps, the stats, the UUID source (a freshness counter), and the target
connection. -/
structure MigratorState where
  user_id_map : List (Int × Nat)
  pattern_id_map : List (Int × Nat)
  problem_id_map : List (Int × Nat)
  session_id_map : List (Int × Nat)
  attempt_id_map : List (Int × Nat)
  invite_code_id_map : List (Int × Nat)
  stats : MigrationStats
  nextUuid : Nat
  pg : PgState
deriving DecidableEq, Repr

def initState (pg0 : PgState) : MigratorState :=
  { user_id_map := []
    pattern_id_map := []
    problem_id_map := []
    session_id_map := []
    attempt_id_map := []
    invite_code_id_map := []
    stats := MigrationStats.init
    nextUuid := 0
    pg := pg0 }

/-- One event of the run trace: each SQL statement the script successfully
executes, plus the transaction boundaries. -/
inductive MEvent where
  | deleteFrom : String → MEvent
  | insert : PgRow → MEvent
  | commit : MEvent
  | rollback : MEvent
deriving DecidableEq, Repr

/-! ## Reading the source tables.  A `SELECT ... ORDER BY k` is a stable
sort of the stored rows by `k`; a `SELECT` without `ORDER BY` returns the
rows in storage order (SQLite gives no ordering guarantee there; the
storage order stands for whatever order the engine picks). -/

def insertLe {α : Type} (le : α → α → Bool) (a : α) : List α → List α
  | [] => [a]
  | b :: bs => if le a b then a :: b :: bs else b :: insertLe le a bs

/-- Stable insertion sort by `le`. -/
def sortLe {α : Type} (le : α → α → Bool) : List α → List α
  | [] => []
  | a :: rest => insertLe le a (sortLe le rest)

def userLe (a b : SqliteUser) : Bool := decide (a.id ≤ b.id)
def inviteLe (a b : SqliteInviteCode) : Bool := decide (a.id ≤ b.id)
def patternLe (a b : SqlitePattern) : Bool := decide (a.id ≤ b.id)
def problemLe (a b : SqliteProblem) : Bool := decide (a.id ≤ b.id)
def sessionLe (a b : SqliteSession) : Bool := decide (a.id ≤ b.id)
def attemptLe (a b : SqliteAttempt) : Bool := decide (a.id ≤ b.id)

/-- The composite key of `ORDER BY session_id, order_index`. -/
def spLe (a b : SqliteSessionProblem) : Bool :=
  decide (a.session_id < b.session_id ∨
    (a.session_id = b.session_id ∧ a.order_index ≤ b.order_index))

/-- The ascending composite order on `problem_patterns` rows; the script
does NOT request it (no `ORDER BY`), it is stated here so claims about the
read order can be formalised. -/
def ppLe (a b : SqliteProblemPattern) : Bool :=
  decide (a.problem_id < b.problem_id ∨
    (a.problem_id = b.problem_id ∧ a.pattern_id ≤ b.pattern_id))

/-- `SELECT * FROM users ORDER BY id`. -/
def fetch_users (db : SqliteDb) : List SqliteUser := sortLe userLe db.users

/-- `SELECT * FROM invite_codes ORDER BY id`. -/
def fetch_invite_codes (db : SqliteDb) : List SqliteInviteCode :=
  sortLe inviteLe db.invite_codes

/-- `SELECT * FROM patterns ORDER BY id`. -/
def fetch_patterns (db : SqliteDb) : List SqlitePattern :=
  sortLe patternLe db.patterns

/-- `SELECT * FROM problems ORDER BY id`. -/
def fetch_problems (db : SqliteDb) : List SqliteProblem :=
  sortLe problemLe db.problems

/-- `SELECT * FROM problem_patterns` — no `ORDER BY`: storage order. -/
def fetch_problem_patterns (db : SqliteDb) : List SqliteProblemPattern :=
  db.problem_patterns

/-- `SELECT * FROM sessions ORDER BY id`. -/
def fetch_sessions (db : SqliteDb) : List SqliteSession :=
  sortLe sessionLe db.sessions

/-- `SELECT * FROM session_problems ORDER BY session_id, order_index`. -/
def fetch_session_problems (db : SqliteDb) : List SqliteSessionProblem :=
  sortLe spLe db.session_problems

/-- `SELECT * FROM attempts ORDER BY id`. -/
def fetch_attempts (db : SqliteDb) : List SqliteAttempt :=
  sortLe attemptLe db.attempts

/-- `SELECT * FROM user_problem_stats` — no `ORDER BY`: storage order. -/
def fetch_user_problem_stats (db : SqliteDb) : List SqliteUserProblemStat :=
  db.user_problem_stats

/-- `SELECT * FROM user_pattern_stats` — no `ORDER BY`: storage order. -/
def fetch_user_pattern_stats (db : SqliteDb) : List SqliteUserPatternStat :=
  db.user_pattern_stats

/-! ## Target-row builders: the parameter tuple of each INSERT statement,
as a function of the source row, the freshly generated id, the resolved
foreign keys and `now` (`datetime.utcnow()`). -/

def userTarget (now : Datetime) (new_id : Nat) (row : SqliteUser) : PgUser :=
  { id := new_id
    username := row.username
    email := row.email
    password_hash := row.password_hash
    role := pyStrOr row.role "user"
    is_active := pyBool row.is_active
    created_at := some (pyDtOr (parse_sqlite_datetime row.created_at) now) }

def inviteTarget (now : Datetime) (new_id : Nat) (creator_id : Option Nat)
    (row : SqliteInviteCode) : PgInviteCode :=
  { id := new_id
    code := row.code
    created_by_user_id := creator_id
    is_used := pyBool row.is_used
    created_at := some (pyDtOr (parse_sqlite_datetime row.created_at) now)
    used_at := parse_sqlite_datetime row.used_at }

def patternTarget (now : Datetime) (new_id : Nat) (row : SqlitePattern) : PgPattern :=
  { id := new_id
    title := row.title
    description := row.description
    created_at := some (pyDtOr (parse_sqlite_datetime row.created_at) now) }

def problemTarget (now : Datetime) (new_id : Nat) (row : SqliteProblem) : PgProblem :=
  { id := new_id
    title := row.title
    source := row.source
    url := row.url
    difficulty := row.difficulty
    created_at := some (pyDtOr (parse_sqlite_datetime row.created_at) now) }

def ppTarget (problem_id pattern_id : Nat) : PgProblemPattern :=
  { problem_id := problem_id, pattern_id := pattern_id }

def sessionTarget (now : Datetime) (new_id user_id : Nat)
    (row : SqliteSession) : PgSession :=
  { id := new_id
    user_id := user_id
    title := row.title
    session_type := row.session_type
    status := row.status
    total_problems := row.total_problems
    completed_problems := row.completed_problems
    elapsed_time_seconds := row.elapsed_time_seconds
    timer_state := row.timer_state
    timer_last_updated_at := parse_sqlite_datetime row.timer_last_updated_at
    started_at := parse_sqlite_datetime row.started_at
    completed_at := parse_sqlite_datetime row.completed_at
    created_at := some (pyDtOr (parse_sqlite_datetime row.created_at) now) }

def spTarget (session_id problem_id : Nat) (row : SqliteSessionProblem) : PgSessionProblem :=
  { session_id := session_id
    problem_id := problem_id
    order_index := row.order_index
    is_completed := pyBool row.is_completed }

def attemptTarget (now : Datetime) (new_id user_id problem_id : Nat)
    (session_id : Option Nat) (row : SqliteAttempt) : PgAttempt :=
  { id := new_id
    user_id := user_id
    problem_id := problem_id
    session_id := session_id
    confidence_score := row.confidence_score
    duration_seconds := row.duration_seconds
    outcome := row.outcome
    notes := row.notes
    performed_at := some (pyDtOr (parse_sqlite_datetime row.performed_at) now)
    status := pyStrOr row.status "completed"
    elapsed_time_seconds := row.elapsed_time_seconds
    timer_state := row.timer_state
    timer_last_updated_at := parse_sqlite_datetime row.timer_last_updated_at
    started_at := parse_sqlite_datetime row.started_at }

def upsTarget (user_id problem_id : Nat) (row : SqliteUserProblemStat) : PgUserProblemStat :=
  { user_id := user_id
    problem_id := problem_id
    status := row.status
    confidence := row.confidence
    avg_confidence := row.avg_confidence
    last_attempt_at := parse_sqlite_datetime row.last_attempt_at
    total_attempts := row.total_attempts
    avg_time_seconds := row.avg_time_seconds
    last_outcome := row.last_outcome
    recent_history_json := row.recent_history_json
    next_review_at := parse_sqlite_datetime row.next_review_at
    interval_days := row.interval_days
    ease_factor := row.ease_factor
    review_count := row.review_count }

def upatTarget (user_id pattern_id : Nat) (row : SqliteUserPatternStat) : PgUserPatternStat :=
  { user_id := user_id
    pattern_id := pattern_id
    avg_confidence := row.avg_confidence
    times_revised := row.times_revised }

/-! ## Per-table row loops.  `ok i` says whether the target accepts the
INSERT executed for the row at position `i` of the fetched list
(`cursor.execute` raising `psycopg2.Error` ⟷ `ok i = false`).  Each loop
returns the updated migrator state and the events it executed; the
`migrate_*` wrapper adds the final `pg_conn.commit()`. -/

/-- Row loop of `migrate_users`.  Note the id map is written BEFORE the
INSERT is attempted. -/
def users_loop (now : Datetime) (ok : Nat → Bool) (i : Nat) :
    List SqliteUser → MigratorState → MigratorState × List MEvent
  | [], st => (st, [])
  | row :: rest, st =>
    let new_id := st.nextUuid
    let st1 := { st with nextUuid := st.nextUuid + 1,
                         user_id_map := idPut st.user_id_map row.id new_id }
    let tgt := userTarget now new_id row
    if ok i then
      let st2 := { st1 with
        pg := pgBuffer st1.pg (PgRow.user tgt)
        stats := { st1.stats with users := st1.stats.users + 1 } }
      let res := users_loop now ok (i + 1) rest st2
      (res.1, MEvent.insert (PgRow.user tgt) :: res.2)
    else
      let st2 := { st1 with
        stats := { st1.stats with
          errors := st1.stats.errors ++ [MigError.userInsert row.username] }
        pg := pgRollback st1.pg }
      let res := users_loop now ok (i + 1) rest st2
      (res.1, MEvent.rollback :: res.2)

def migrate_users (now : Datetime) (ok : Nat → Bool) (db : SqliteDb)
    (st : MigratorState) : MigratorState × List MEvent :=
  let res := users_loop now ok 0 (fetch_users db) st
  ({ res.1 with pg := pgCommit res.1.pg }, res.2 ++ [MEvent.commit])

/-- Row loop of `migrate_invite_codes`.  `creator_id` mirrors
`if row["created_by_user_id"]: creator_id = user_id_map.get(...)` — an
unresolved (or falsy) creator silently becomes NULL. -/
def invite_codes_loop (now : Datetime) (ok : Nat → Bool) (i : Nat) :
    List SqliteInviteCode → MigratorState → MigratorState × List MEvent
  | [], st => (st, [])
  | row :: rest, st =>
    let new_id := st.nextUuid
    let st1 := { st with nextUuid := st.nextUuid + 1,
                         invite_code_id_map := idPut st.invite_code_id_map row.id new_id }
    let creator_id : Option Nat :=
      if pyIntTruthy row.created_by_user_id then
        idGet st1.user_id_map (row.created_by_user_id.getD 0)
      else none
    let tgt := inviteTarget now new_id creator_id row
    if ok i then
      let st2 := { st1 with
        pg := pgBuffer st1.pg (PgRow.inviteCode tgt)
        stats := { st1.stats with invite_codes := st1.stats.invite_codes + 1 } }
      let res := invite_codes_loop now ok (i + 1) rest st2
      (res.1, MEvent.insert (PgRow.inviteCode tgt) :: res.2)
    else
      let st2 := { st1 with
        stats := { st1.stats with
          errors := st1.stats.errors ++ [MigError.inviteCodeInsert row.code] }
        pg := pgRollback st1.pg }
      let res := invite_codes_loop now ok (i + 1) rest st2
      (res.1, MEvent.rollback :: res.2)

def migrate_invite_codes (now : Datetime) (ok : Nat → Bool) (db : SqliteDb)
    (st : MigratorState) : MigratorState × List MEvent :=
  let res := invite_codes_loop now ok 0 (fetch_invite_codes db) st
  ({ res.1 with pg := pgCommit res.1.pg }, res.2 ++ [MEvent.commit])

/-- Row loop of `migrate_patterns`. -/
def patterns_loop (now : Datetime) (ok : Nat → Bool) (i : Nat) :
    List SqlitePattern → MigratorState → MigratorState × List MEvent
  | [], st => (st, [])
  | row :: rest, st =>
    let new_id := st.nextUuid
    let st1 := { st with nextUuid := st.nextUuid + 1,
                         pattern_id_map := idPut st.pattern_id_map row.id new_id }
    let tgt := patternTarget now new_id row
    if ok i then
      let st2 := { st1 with
        pg := pgBuffer st1.pg (PgRow.pattern tgt)
        stats := { st1.stats with patterns := st1.stats.patterns + 1 } }
      let res := patterns_loop now ok (i + 1) rest st2
      (res.1, MEvent.insert (PgRow.pattern tgt) :: res.2)
    else
      let st2 := { st1 with
        stats := { st1.stats with
          errors := st1.stats.errors ++ [MigError.patternInsert row.title] }
        pg := pgRollback st1.pg }
      let res := patterns_loop now ok (i + 1) rest st2
      (res.1, MEvent.rollback :: res.2)

def migrate_patterns (now : Datetime) (ok : Nat → Bool) (db : SqliteDb)
    (st : MigratorState) : MigratorState × List MEvent :=
  let res := patterns_loop now ok 0 (fetch_patterns db) st
  ({ res.1 with pg := pgCommit res.1.pg }, res.2 ++ [MEvent.commit])

/-- Row loop of `migrate_problems`. -/
def problems_loop (now : Datetime) (ok : Nat → Bool) (i : Nat) :
    List SqliteProblem → MigratorState → MigratorState × List MEvent
  | [], st => (st, [])
  | row :: rest, st =>
    let new_id := st.nextUuid
    let st1 := { st with nextUuid := st.nextUuid + 1,
                         problem_id_map := idPut st.problem_id_map row.id new_id }
    let tgt := problemTarget now new_id row
    if ok i then
      let st2 := { st1 with
        pg := pgBuffer st1.pg (PgRow.problem tgt)
        stats := { st1.stats with problems := st1.stats.problems + 1 } }
      let res := problems_loop now ok (i + 1) rest st2
      (res.1, MEvent.insert (PgRow.problem tgt) :: res.2)
    else
      let st2 := { st1 with
        stats := { st1.stats with
          errors := st1.stats.errors ++ [MigError.problemInsert row.title] }
        pg := pgRollback st1.pg }
      let res := problems_loop now ok (i + 1) rest st2
      (res.1, MEvent.rollback :: res.2)

def migrate_problems (now : Datetime) (ok : Nat → Bool) (db : SqliteDb)
    (st : MigratorState) : MigratorState × List MEvent :=
  let res := problems_loop now ok 0 (fetch_problems db) st
  ({ res.1 with pg := pgCommit res.1.pg }, res.2 ++ [MEvent.commit])

/-- Row loop of `migrate_problem_patterns`: both mappings required, a row
missing either is dropped with one error and no INSERT. -/
def problem_patterns_loop (ok : Nat → Bool) (i : Nat) :
    List SqliteProblemPattern → MigratorState → MigratorState × List MEvent
  | [], st => (st, [])
  | row :: rest, st =>
    match idGet st.problem_id_map row.problem_id,
          idGet st.pattern_id_map row.pattern_id with
    | some problem_id, some pattern_id =>
      let tgt := ppTarget problem_id pattern_id
      if ok i then
        let st2 := { st with
          pg := pgBuffer st.pg (PgRow.problemPattern tgt)
          stats := { st.stats with problem_patterns := st.stats.problem_patterns + 1 } }
        let res := problem_patterns_loop ok (i + 1) rest st2
        (res.1, MEvent.insert (PgRow.problemPattern tgt) :: res.2)
      else
        let st2 := { st with
          stats := { st.stats with
            errors := st.stats.errors ++ [MigError.problemPatternInsert] }
          pg := pgRollback st.pg }
        let res := problem_patterns_loop ok (i + 1) rest st2
        (res.1, MEvent.rollback :: res.2)
    | _, _ =>
      let st2 := { st with
        stats := { st.stats with
          errors := st.stats.errors ++
            [MigError.problemPatternMissing row.problem_id row.pattern_id] } }
      problem_patterns_loop ok (i + 1) rest st2

def migrate_problem_patterns (ok : Nat → Bool) (db : SqliteDb)
    (st : MigratorState) : MigratorState × List MEvent :=
  let res := problem_patterns_loop ok 0 (fetch_problem_patterns db) st
  ({ res.1 with pg := pgCommit res.1.pg }, res.2 ++ [MEvent.commit])

/-- Row loop of `migrate_sessions`: the session's id is registered in
`session_id_map` BEFORE the required user mapping is checked, so even a
dropped session leaves an entry behind. -/
def sessions_loop (now : Datetime) (ok : Nat → Bool) (i : Nat) :
    List SqliteSession → MigratorState → MigratorState × List MEvent
  | [], st => (st, [])
  | row :: rest, st =>
    let new_id := st.nextUuid
    let st1 := { st with nextUuid := st.nextUuid + 1,
                         session_id_map := idPut st.session_id_map row.id new_id }
    match idGet st1.user_id_map row.user_id with
    | none =>
      let st2 := { st1 with
        stats := { st1.stats with
          errors := st1.stats.errors ++ [MigError.sessionMissingUser row.id] } }
      sessions_loop now ok (i + 1) rest st2
    | some user_id =>
      let tgt := sessionTarget now new_id user_id row
      if ok i then
        let st2 := { st1 with
          pg := pgBuffer st1.pg (PgRow.session tgt)
          stats := { st1.stats with sessions := st1.stats.sessions + 1 } }
        let res := sessions_loop now ok (i + 1) rest st2
        (res.1, MEvent.insert (PgRow.session tgt) :: res.2)
      else
        let st2 := { st1 with
          stats := { st1.stats with
            errors := st1.stats.errors ++ [MigError.sessionInsert row.title] }
          pg := pgRollback st1.pg }
        let res := sessions_loop now ok (i + 1) rest st2
        (res.1, MEvent.rollback :: res.2)

def migrate_sessions (now : Datetime) (ok : Nat → Bool) (db : SqliteDb)
    (st : MigratorState) : MigratorState × List MEvent :=
  let res := sessions_loop now ok 0 (fetch_sessions db) st
  ({ res.1 with pg := pgCommit res.1.pg }, res.2 ++ [MEvent.commit])

/-- Row loop of `migrate_session_problems`. -/
def session_problems_loop (ok : Nat → Bool) (i : Nat) :
    List SqliteSessionProblem → MigratorState → MigratorState × List MEvent
  | [], st => (st, [])
  | row :: rest, st =>
    match idGet st.session_id_map row.session_id,
          idGet st.problem_id_map row.problem_id with
    | some session_id, some problem_id =>
      let tgt := spTarget session_id problem_id row
      if ok i then
        let st2 := { st with
          pg := pgBuffer st.pg (PgRow.sessionProblem tgt)
          stats := { st.stats with session_problems := st.stats.session_problems + 1 } }
        let res := session_problems_loop ok (i + 1) rest st2
        (res.1, MEvent.insert (PgRow.sessionProblem tgt) :: res.2)
      else
        let st2 := { st with
          stats := { st.stats with
            errors := st.stats.errors ++ [MigError.sessionProblemInsert] }
          pg := pgRollback st.pg }
        let res := session_problems_loop ok (i + 1) rest st2
        (res.1, MEvent.rollback :: res.2)
    | _, _ =>
      let st2 := { st with
        stats := { st.stats with
          errors := st.stats.errors ++
            [MigError.sessionProblemMissing row.session_id row.problem_id] } }
      session_problems_loop ok (i + 1) rest st2

def migrate_session_problems (ok : Nat → Bool) (db : SqliteDb)
    (st : MigratorState) : MigratorState × List MEvent :=
  let res := session_problems_loop ok 0 (fetch_session_problems db) st
  ({ res.1 with pg := pgCommit res.1.pg }, res.2 ++ [MEvent.commit])

/-- Row loop of `migrate_attempts`: the attempt's id is registered first;
`user_id` and `problem_id` are required (one combined check, one error);
`session_id` is optional and resolves to NULL when absent or unmapped. -/
def attempts_loop (now : Datetime) (ok : Nat → Bool) (i : Nat) :
    List SqliteAttempt → MigratorState → MigratorState × List MEvent
  | [], st => (st, [])
  | row :: rest, st =>
    let new_id := st.nextUuid
    let st1 := { st with nextUuid := st.nextUuid + 1,
                         attempt_id_map := idPut st.attempt_id_map row.id new_id }
    match idGet st1.user_id_map row.user_id,
          idGet st1.problem_id_map row.problem_id with
    | some user_id, some problem_id =>
      let session_id : Option Nat :=
        if pyIntTruthy row.session_id then
          idGet st1.session_id_map (row.session_id.getD 0)
        else none
      let tgt := attemptTarget now new_id user_id problem_id session_id row
      if ok i then
        let st2 := { st1 with
          pg := pgBuffer st1.pg (PgRow.attempt tgt)
          stats := { st1.stats with attempts := st1.stats.attempts + 1 } }
        let res := attempts_loop now ok (i + 1) rest st2
        (res.1, MEvent.insert (PgRow.attempt tgt) :: res.2)
      else
        let st2 := { st1 with
          stats := { st1.stats with
            errors := st1.stats.errors ++ [MigError.attemptInsert row.id] }
          pg := pgRollback st1.pg }
        let res := attempts_loop now ok (i + 1) rest st2
        (res.1, MEvent.rollback :: res.2)
    | _, _ =>
      let st2 := { st1 with
        stats := { st1.stats with
          errors := st1.stats.errors ++ [MigError.attemptMissing row.id] } }
      attempts_loop now ok (i + 1) rest st2

def migrate_attempts (now : Datetime) (ok : Nat → Bool) (db : SqliteDb)
    (st : MigratorState) : MigratorState × List MEvent :=
  let res := attempts_loop now ok 0 (fetch_attempts db) st
  ({ res.1 with pg := pgCommit res.1.pg }, res.2 ++ [MEvent.commit])

/-- Row loop of `migrate_user_problem_stats`. -/
def user_problem_stats_loop (ok : Nat → Bool) (i : Nat) :
    List SqliteUserProblemStat → MigratorState → MigratorState × List MEvent
  | [], st => (st, [])
  | row :: rest, st =>
    match idGet st.user_id_map row.user_id,
          idGet st.problem_id_map row.problem_id with
    | some user_id, some problem_id =>
      let tgt := upsTarget user_id problem_id row
      if ok i then
        let st2 := { st with
          pg := pgBuffer st.pg (PgRow.userProblemStat tgt)
          stats := { st.stats with user_problem_stats := st.stats.user_problem_stats + 1 } }
        let res := user_problem_stats_loop ok (i + 1) rest st2
        (res.1, MEvent.insert (PgRow.userProblemStat tgt) :: res.2)
      else
        let st2 := { st with
          stats := { st.stats with
            errors := st.stats.errors ++ [MigError.userProblemStatInsert] }
          pg := pgRollback st.pg }
        let res := user_problem_stats_loop ok (i + 1) rest st2
        (res.1, MEvent.rollback :: res.2)
    | _, _ =>
      let st2 := { st with
        stats := { st.stats with
          errors := st.stats.errors ++
            [MigError.userProblemStatMissing row.user_id row.problem_id] } }
      user_problem_stats_loop ok (i + 1) rest st2

def migrate_user_problem_stats (ok : Nat → Bool) (db : SqliteDb)
    (st : MigratorState) : MigratorState × List MEvent :=
  let res := user_problem_stats_loop ok 0 (fetch_user_problem_stats db) st
  ({ res.1 with pg := pgCommit res.1.pg }, res.2 ++ [MEvent.commit])

/-- Row loop of `migrate_user_pattern_stats`. -/
def user_pattern_stats_loop (ok : Nat → Bool) (i : Nat) :
    List SqliteUserPatternStat → MigratorState → MigratorState × List MEvent
  | [], st => (st, [])
  | row :: rest, st =>
    match idGet st.user_id_map row.user_id,
          idGet st.pattern_id_map row.pattern_id with
    | some user_id, some pattern_id =>
      let tgt := upatTarget user_id pattern_id row
      if ok i then
        let st2 := { st with
          pg := pgBuffer st.pg (PgRow.userPatternStat tgt)
          stats := { st.stats with user_pattern_stats := st.stats.user_pattern_stats + 1 } }
        let res := user_pattern_stats_loop ok (i + 1) rest st2
        (res.1, MEvent.insert (PgRow.userPatternStat tgt) :: res.2)
      else
        let st2 := { st with
          stats := { st.stats with
            errors := st.stats.errors ++ [MigError.userPatternStatInsert] }
          pg := pgRollback st.pg }
        let res := user_pattern_stats_loop ok (i + 1) rest st2
        (res.1, MEvent.rollback :: res.2)
    | _, _ =>
      let st2 := { st with
        stats := { st.stats with
          errors := st.stats.errors ++
            [MigError.userPatternStatMissing row.user_id row.pattern_id] } }
      user_pattern_stats_loop ok (i + 1) rest st2

def migrate_user_pattern_stats (ok : Nat → Bool) (db : SqliteDb)
    (st : MigratorState) : MigratorState × List MEvent :=
  let res := user_pattern_stats_loop ok 0 (fetch_user_pattern_stats db) st
  ({ res.1 with pg := pgCommit res.1.pg }, res.2 ++ [MEvent.commit])

/-! ## Clearing, orchestration and the command line. -/

/-- The `tables` list of `clear_postgres_tables` — reverse dependency
order. -/
def clear_tables : List String :=
  ["user_pattern_stats", "user_problem_stats", "attempts", "session_problems",
   "sessions", "problem_patterns", "problems", "patterns", "invite_codes", "users"]

/-- The DELETE loop of `clear_postgres_tables`: `del_ok i` says whether the
DELETE for the `i`-th table succeeds.  Returns the successfully executed
`deleteFrom` events and whether the loop ran to completion. -/
def clear_loop (del_ok : Nat → Bool) (i : Nat) : List String → List MEvent × Bool
  | [] => ([], true)
  | t :: rest =>
    if del_ok i then
      let res := clear_loop del_ok (i + 1) rest
      (MEvent.deleteFrom t :: res.1, res.2)
    else ([], false)

/-- `clear_postgres_tables`: on success all tables are emptied and the
transaction committed; on any failure the transaction is rolled back (the
uncommitted deletes are undone, so the target data is untouched) and the
`psycopg2.Error` is re-raised (the returned flag is `false`). -/
def clear_postgres_tables (del_ok : Nat → Bool) (st : MigratorState) :
    (MigratorState × List MEvent) × Bool :=
  let res := clear_loop del_ok 0 clear_tables
  if res.2 then
    (({ st with pg := { committed := [], pending := [] } },
      res.1 ++ [MEvent.commit]), true)
  else ((st, res.1 ++ [MEvent.rollback]), false)

/-- How a run terminates. -/
inductive RunExit where
  | success : RunExit
  | fatal : RunExit
  | connectExit : RunExit
deriving DecidableEq, Repr

/-- The observable outcome of `run_migration`: final migrator state, the
event trace against the target, how the run ended, and whether each
connection's `.close()` was reached. -/
structure RunOutcome where
  state : MigratorState
  trace : List MEvent
  exitKind : RunExit
  sqliteClosed : Bool
  pgClosed : Bool
deriving DecidableEq, Repr

/-- `run_migration`.  The two connections are opened BEFORE the
`try/finally` block; `connect_sqlite`/`connect_postgres` call
`sys.exit(1)` on failure, so a connection failure terminates the process
without reaching the `finally` that closes the connections
(`exitKind = connectExit`, neither close executed).  A failure inside
`clear_postgres_tables` is caught by `except Exception`, re-raised, and
the `finally` closes both connections (`exitKind = fatal`).  Otherwise the
ten table steps run strictly in sequence and both connections are
closed. -/
def run_migration (sqlite_ok pg_ok : Bool) (del_ok : Nat → Bool)
    (ins_ok : String → Nat → Bool) (now : Datetime) (db : SqliteDb)
    (pg0 : PgState) : RunOutcome :=
  if sqlite_ok = false then
    { state := initState pg0, trace := [], exitKind := RunExit.connectExit,
      sqliteClosed := false, pgClosed := false }
  else if pg_ok = false then
    { state := initState pg0, trace := [], exitKind := RunExit.connectExit,
      sqliteClosed := false, pgClosed := false }
  else
    let c := clear_postgres_tables del_ok (initState pg0)
    if c.2 then
      let r1 := migrate_users now (ins_ok "users") db c.1.1
      let r2 := migrate_invite_codes now (ins_ok "invite_codes") db r1.1
      let r3 := migrate_patterns now (ins_ok "patterns") db r2.1
      let r4 := migrate_problems now (ins_ok "problems") db r3.1
      let r5 := migrate_problem_patterns (ins_ok "problem_patterns") db r4.1
      let r6 := migrate_sessions now (ins_ok "sessions") db r5.1
      let r7 := migrate_session_problems (ins_ok "session_problems") db r6.1
      let r8 := migrate_attempts now (ins_ok "attempts") db r7.1
      let r9 := migrate_user_problem_stats (ins_ok "user_problem_stats") db r8.1
      let r10 := migrate_user_pattern_stats (ins_ok "user_pattern_stats") db r9.1
      { state := r10.1
        trace := c.1.2 ++ r1.2 ++ r2.2 ++ r3.2 ++ r4.2 ++ r5.2 ++ r6.2 ++
                 r7.2 ++ r8.2 ++ r9.2 ++ r10.2
        exitKind := RunExit.success
        sqliteClosed := true
        pgClosed := true }
    else
      { state := c.1.1, trace := c.1.2, exitKind := RunExit.fatal,
        sqliteClosed := true, pgClosed := true }

/-- The `main` entry point after the confirmation prompt: `argparse`
defines a `--no-clear` flag ("Skip clearing existing PostgreSQL data"),
but `args.no_clear` is never consulted — `run_migration` is called
unconditionally and always clears. -/
def main_run (no_clear : Bool) (sqlite_ok pg_ok : Bool) (del_ok : Nat → Bool)
    (ins_ok : String → Nat → Bool) (now : Datetime) (db : SqliteDb)
    (pg0 : PgState) : RunOutcome :=
  run_migration sqlite_ok pg_ok del_ok ins_ok now db pg0

/-! ## Helper lemmas: the insertion sort used to model `ORDER BY`. -/

theorem insertLe_perm {α : Type} (le : α → α → Bool) (a : α) (l : List α) :
    List.Perm (insertLe le a l) (a :: l) := by
  induction l with
  | nil => simp [insertLe]
  | cons b bs ih =>
    by_cases h : le a b = true
    · simp [insertLe, h]
    · simp only [insertLe, h, if_false, Bool.false_eq_true, ite_false]
      exact (ih.cons b).trans (List.Perm.swap a b bs)

theorem sortLe_perm {α : Type} (le : α → α → Bool) (l : List α) :
    List.Perm (sortLe le l) l := by
  induction l with
  | nil => simp [sortLe]
  | cons a rest ih => exact (insertLe_perm le a _).trans (ih.cons a)

theorem insertLe_pairwise {α : Type} (le : α → α → Bool)
    (htot : ∀ a b, le a b = true ∨ le b a = true)
    (htr : ∀ a b c, le a b = true → le b c = true → le a c = true)
    (a : α) (l : List α) (h : l.Pairwise fun x y => le x y = true) :
    (insertLe le a l).Pairwise fun x y => le x y = true := by
  induction l with
  | nil => simp [insertLe]
  | cons b bs ih =>
    rcases List.pairwise_cons.mp h with ⟨hb, hbs⟩
    by_cases hab : le a b = true
    · simp only [insertLe, hab, ite_true]
      rw [List.pairwise_cons]
      refine ⟨?_, h⟩
      intro y hy
      rcases List.mem_cons.mp hy with rfl | hy2
      · exact hab
      · exact htr a b y hab (hb y hy2)
    · simp only [insertLe, hab, Bool.false_eq_true, ite_false]
      rw [List.pairwise_cons]
      refine ⟨?_, ih hbs⟩
      intro y hy
      rcases List.mem_cons.mp ((insertLe_perm le a bs).mem_iff.mp hy) with rfl | hy2
      · rcases htot y b with h2 | h2
        · exact absurd h2 hab
        · exact h2
      · exact hb y hy2

theorem sortLe_pairwise {α : Type} (le : α → α → Bool)
    (htot : ∀ a b, le a b = true ∨ le b a = true)
    (htr : ∀ a b c, le a b = true → le b c = true → le a c = true)
    (l : List α) : (sortLe le l).Pairwise fun x y => le x y = true := by
  induction l with
  | nil => simp [sortLe]
  | cons a rest ih => exact insertLe_pairwise le htot htr a _ ih

/-! ## Helper lemmas: the id maps. -/

theorem idGet_put_self (m : List (Int × Nat)) (k : Int) (v : Nat) :
    idGet (idPut m k v) k = some v := by
  simp [idPut, idGet]

theorem idGet_put_isSome (m : List (Int × Nat)) (k : Int) (v : Nat) (k2 : Int)
    (h : (idGet m k2).isSome) : (idGet (idPut m k v) k2).isSome := by
  unfold idPut idGet
  split
  · simp
  · exact h

/-! ## Helper lemmas: the user id map only gains entries through the
users loop, and every row of the loop registers its id — whether or not
its INSERT succeeds. -/

theorem users_loop_map_preserved (now : Datetime) (ok : Nat → Bool) :
    ∀ (rows : List SqliteUser) (i : Nat) (st : MigratorState) (k : Int),
      (idGet st.user_id_map k).isSome →
      (idGet ((users_loop now ok i rows st).1).user_id_map k).isSome := by
  intro rows
  induction rows with
  | nil => intro i st k h; simpa [users_loop] using h
  | cons row rest ih =>
    intro i st k h
    by_cases hok : ok i = true <;>
      simp only [users_loop, hok, Bool.false_eq_true, ite_true, ite_false] <;>
      exact ih _ _ k (idGet_put_isSome _ _ _ _ h)

theorem users_loop_registers (now : Datetime) (ok : Nat → Bool) :
    ∀ (rows : List SqliteUser) (i : Nat) (st : MigratorState) (r : SqliteUser),
      r ∈ rows →
      (idGet ((users_loop now ok i rows st).1).user_id_map r.id).isSome := by
  intro rows
  induction rows with
  | nil => intro i st r h; simp at h
  | cons row rest ih =>
    intro i st r hr
    rcases List.mem_cons.mp hr with rfl | hr2
    · by_cases hok : ok i = true <;>
        simp only [users_loop, hok, Bool.false_eq_true, ite_true, ite_false] <;>
        exact users_loop_map_preserved now ok rest _ _ _
          (by rw [idGet_put_self]; rfl)
    · by_cases hok : ok i = true <;>
        simp only [users_loop, hok, Bool.false_eq_true, ite_true, ite_false] <;>
        exact ih _ _ r hr2

/-! ## Helper lemmas: the events a table step emits. -/

/-- The events a row loop may emit for table `t`: INSERTs into `t` and
rollbacks, nothing else (in particular no commit and no DELETE). -/
def rowEvOk (t : String) : MEvent → Prop
  | .insert r => rowTable r = t
  | .rollback => True
  | _ => False

/-- A well-formed step block of the trace: some row events for table `t`
followed by the step's single final commit. -/
def stepBlock (t : String) (evs : List MEvent) : Prop :=
  ∃ body, evs = body ++ [MEvent.commit] ∧ ∀ e ∈ body, rowEvOk t e

theorem users_loop_events (now : Datetime) (ok : Nat → Bool) :
    ∀ (rows : List SqliteUser) (i : Nat) (st : MigratorState),
      ∀ e ∈ (users_loop now ok i rows st).2, rowEvOk "users" e := by
  intro rows
  induction rows with
  | nil => intro i st e he; simp [users_loop] at he
  | cons row rest ih =>
    intro i st e he
    by_cases hok : ok i = true <;>
      simp only [users_loop, hok, Bool.false_eq_true, ite_true, ite_false,
        List.mem_cons] at he <;>
      rcases he with rfl | he2
    · simp [rowEvOk, rowTable]
    · exact ih _ _ e he2
    · simp [rowEvOk]
    · exact ih _ _ e he2

/-! ## Concrete data used by witnesses and counterexamples. -/

def dt0 : Datetime := ⟨2024, 1, 1, 0, 0, 0⟩

def pgEmpty : PgState := ⟨[], []⟩

def emptyDb : SqliteDb := ⟨[], [], [], [], [], [], [], [], [], []⟩

def exUser1 : SqliteUser :=
  ⟨1, "u1", "u1@example.com", "h", some "user", some 1, none⟩

def exSession1 : SqliteSession :=
  ⟨1, 1, "s1", "practice", "active", 0, 0, 0, none, none, none, none, none⟩

/-- A source database whose single session references the single user. -/
def exDb1 : SqliteDb := { emptyDb with users := [exUser1], sessions := [exSession1] }

/-! ## Claim C1 -/

/-- C1 (counterexample): the claim — ids registered only after a
successful write, children migrated only towards successfully written
parents — is false.  In `exDb1` the single user's INSERT is rejected
(`stats.users = 0`, no user row is ever committed), yet the session
referencing that user still resolves its foreign key through the eagerly
written id map and is migrated (`stats.sessions = 1`, committed with
`user_id` = the id the failed user row drew). -/
theorem c1_register_after_write_counterexample :
    (migrate_users dt0 (fun _ => false) exDb1 (initState pgEmpty)).1.stats.users = 0 ∧
    (migrate_sessions dt0 (fun _ => true) exDb1
        (migrate_users dt0 (fun _ => false) exDb1 (initState pgEmpty)).1).1.stats.sessions = 1 ∧
    (migrate_sessions dt0 (fun _ => true) exDb1
        (migrate_users dt0 (fun _ => false) exDb1 (initState pgEmpty)).1).1.pg.committed =
      [PgRow.session (sessionTarget dt0 1 0 exSession1)] ∧
    (∀ r ∈ (migrate_sessions dt0 (fun _ => true) exDb1
        (migrate_users dt0 (fun _ => false) exDb1 (initState pgEmpty)).1).1.pg.committed,
      rowTable r ≠ "users") := by
  refine ⟨rfl, rfl, rfl, ?_⟩
  decide

/-- C1 (amended): for every parent (user) row read from the source, the
new id is registered in `user_id_map` when the row is processed,
regardless of whether its write succeeds; consequently a child (session)
row is migrated exactly when each required foreign key it carries has an
entry in the map — i.e. when the parent row was read, not necessarily
successfully written — and a child whose foreign key has no entry is
dropped with one error and no write. -/
theorem c1_eager_registration_governs_children :
    (∀ (now : Datetime) (ok : Nat → Bool) (db : SqliteDb) (st : MigratorState) (r : SqliteUser),
      r ∈ db.users →
      (idGet ((migrate_users now ok db st).1.user_id_map) r.id).isSome)
    ∧ (∀ (now : Datetime) (ok : Nat → Bool) (i : Nat) (st : MigratorState)
        (row : SqliteSession) (rest : List SqliteSession),
        idGet st.user_id_map row.user_id = none →
        sessions_loop now ok i (row :: rest) st =
          sessions_loop now ok (i + 1) rest
            { st with nextUuid := st.nextUuid + 1,
                      session_id_map := idPut st.session_id_map row.id st.nextUuid,
                      stats := { st.stats with
                        errors := st.stats.errors ++ [MigError.sessionMissingUser row.id] } })
    ∧ (∀ (now : Datetime) (ok : Nat → Bool) (i : Nat) (st : MigratorState)
        (row : SqliteSession) (rest : List SqliteSession) (uid : Nat),
        idGet st.user_id_map row.user_id = some uid → ok i = true →
        sessions_loop now ok i (row :: rest) st =
          ((sessions_loop now ok (i + 1) rest
              { st with nextUuid := st.nextUuid + 1,
                        session_id_map := idPut st.session_id_map row.id st.nextUuid,
                        pg := pgBuffer st.pg (PgRow.session (sessionTarget now st.nextUuid uid row)),
                        stats := { st.stats with sessions := st.stats.sessions + 1 } }).1,
            MEvent.insert (PgRow.session (sessionTarget now st.nextUuid uid row)) ::
              (sessions_loop now ok (i + 1) rest
                { st with nextUuid := st.nextUuid + 1,
                          session_id_map := idPut st.session_id_map row.id st.nextUuid,
                          pg := pgBuffer st.pg (PgRow.session (sessionTarget now st.nextUuid uid row)),
                          stats := { st.stats with sessions := st.stats.sessions + 1 } }).2)) := by
  refine ⟨?_, ?_, ?_⟩
  · intro now ok db st r hr
    have hm : r ∈ fetch_users db :=
      (sortLe_perm userLe db.users).mem_iff.mpr hr
    simpa [migrate_users] using users_loop_registers now ok (fetch_users db) 0 st r hm
  · intro now ok i st row rest h
    simp [sessions_loop, h]
  · intro now ok i st row rest uid h hok
    simp [sessions_loop, h, hok]

/-- Witness for `c1_eager_registration_govern_children` at concrete data:
the single user of `exDb1` is registered in the map even though its
INSERT is rejected. -/
theorem c1_eager_registration_witness :
    exUser1 ∈ exDb1.users ∧
    (idGet ((migrate_users dt0 (fun _ => false) exDb1
      (initState pgEmpty)).1.user_id_map) exUser1.id).isSome :=
  ⟨by decide,
   c1_eager_registration_governs_children.1 dt0 (fun _ => false) exDb1
     (initState pgEmpty) exUser1 (by decide)⟩

/-! ## Claim C2 -/

/-- An attempt row whose user and problem references are unmapped, for the
C2 witness. -/
def exAttempt1 : SqliteAttempt :=
  ⟨1, 5, 5, none, none, none, none, none, none, none, none, none, none, none⟩

/-- C2: a dependent row whose required foreign key has no entry in the
corresponding id map is dropped: no INSERT is executed (the target
connection and the event list are untouched), exactly one error naming the
row's legacy id (for junction rows, its legacy key pair) is appended, and
the table's success counter is not incremented; the loop continues with
the remaining rows.  Stated for sessions, attempts and all four junction
tables. -/
theorem c2_missing_fk_dropped_with_one_error :
    (∀ (now : Datetime) (ok : Nat → Bool) (i : Nat) (st : MigratorState)
        (row : SqliteSession) (rest : List SqliteSession),
        idGet st.user_id_map row.user_id = none →
        sessions_loop now ok i (row :: rest) st =
          sessions_loop now ok (i + 1) rest
            { st with nextUuid := st.nextUuid + 1,
                      session_id_map := idPut st.session_id_map row.id st.nextUuid,
                      stats := { st.stats with
                        errors := st.stats.errors ++ [MigError.sessionMissingUser row.id] } })
    ∧ (∀ (now : Datetime) (ok : Nat → Bool) (i : Nat) (st : MigratorState)
        (row : SqliteAttempt) (rest : List SqliteAttempt),
        (idGet st.user_id_map row.user_id = none ∨
         idGet st.problem_id_map row.problem_id = none) →
        attempts_loop now ok i (row :: rest) st =
          attempts_loop now ok (i + 1) rest
            { st with nextUuid := st.nextUuid + 1,
                      attempt_id_map := idPut st.attempt_id_map row.id st.nextUuid,
                      stats := { st.stats with
                        errors := st.stats.errors ++ [MigError.attemptMissing row.id] } })
    ∧ (∀ (ok : Nat → Bool) (i : Nat) (st : MigratorState)
        (row : SqliteProblemPattern) (rest : List SqliteProblemPattern),
        (idGet st.problem_id_map row.problem_id = none ∨
         idGet st.pattern_id_map row.pattern_id = none) →
        problem_patterns_loop ok i (row :: rest) st =
          problem_patterns_loop ok (i + 1) rest
            { st with stats := { st.stats with
                errors := st.stats.errors ++
                  [MigError.problemPatternMissing row.problem_id row.pattern_id] } })
    ∧ (∀ (ok : Nat → Bool) (i : Nat) (st : MigratorState)
        (row : SqliteSessionProblem) (rest : List SqliteSessionProblem),
        (idGet st.session_id_map row.session_id = none ∨
         idGet st.problem_id_map row.problem_id = none) →
        session_problems_loop ok i (row :: rest) st =
          session_problems_loop ok (i + 1) rest
            { st with stats := { st.stats with
                errors := st.stats.errors ++
                  [MigError.sessionProblemMissing row.session_id row.problem_id] } })
    ∧ (∀ (ok : Nat → Bool) (i : Nat) (st : MigratorState)
        (row : SqliteUserProblemStat) (rest : List SqliteUserProblemStat),
        (idGet st.user_id_map row.user_id = none ∨
         idGet st.problem_id_map row.problem_id = none) →
        user_problem_stats_loop ok i (row :: rest) st =
          user_problem_stats_loop ok (i + 1) rest
            { st with stats := { st.stats with
                errors := st.stats.errors ++
                  [MigError.userProblemStatMissing row.user_id row.problem_id] } })
    ∧ (∀ (ok : Nat → Bool) (i : Nat) (st : MigratorState)
        (row : SqliteUserPatternStat) (rest : List SqliteUserPatternStat),
        (idGet st.user_id_map row.user_id = none ∨
         idGet st.pattern_id_map row.pattern_id = none) →
        user_pattern_stats_loop ok i (row :: rest) st =
          user_pattern_stats_loop ok (i + 1) rest
            { st with stats := { st.stats with
                errors := st.stats.errors ++
                  [MigError.userPatternStatMissing row.user_id row.pattern_id] } }) := by
  refine ⟨?_, ?_, ?_, ?_, ?_, ?_⟩
  · intro now ok i st row rest h
    simp [sessions_loop, h]
  · intro now ok i st row rest h
    rcases h with h | h
    · cases hp : idGet st.problem_id_map row.problem_id <;> simp [attempts_loop, h, hp]
    · cases hu : idGet st.user_id_map row.user_id <;> simp [attempts_loop, h, hu]
  · intro ok i st row rest h
    rcases h with h | h
    · cases h2 : idGet st.pattern_id_map row.pattern_id <;>
        simp [problem_patterns_loop, h, h2]
    · cases h1 : idGet st.problem_id_map row.problem_id <;>
        simp [problem_patterns_loop, h, h1]
  · intro ok i st row rest h
    rcases h with h | h
    · cases h2 : idGet st.problem_id_map row.problem_id <;>
        simp [session_problems_loop, h, h2]
    · cases h1 : idGet st.session_id_map row.session_id <;>
        simp [session_problems_loop, h, h1]
  · intro ok i st row rest h
    rcases h with h | h
    · cases h2 : idGet st.problem_id_map row.problem_id <;>
        simp [user_problem_stats_loop, h, h2]
    · cases h1 : idGet st.user_id_map row.user_id <;>
        simp [user_problem_stats_loop, h, h1]
  · intro ok i st row rest h
    rcases h with h | h
    · cases h2 : idGet st.pattern_id_map row.pattern_id <;>
        simp [user_pattern_stats_loop, h, h2]
    · cases h1 : idGet st.user_id_map row.user_id <;>
        simp [user_pattern_stats_loop, h, h1]

/-- Witness for `c2_missing_fk_dropped_with_one_error`: an attempt whose
user and problem were never migrated is dropped with exactly the one
`attemptMissing` error. -/
theorem c2_missing_fk_witness :
    (idGet (initState pgEmpty).user_id_map exAttempt1.user_id = none ∨
     idGet (initState pgEmpty).problem_id_map exAttempt1.problem_id = none) ∧
    attempts_loop dt0 (fun _ => true) 0 [exAttempt1] (initState pgEmpty) =
      attempts_loop dt0 (fun _ => true) 1 []
        { (initState pgEmpty) with
          nextUuid := (initState pgEmpty).nextUuid + 1,
          attempt_id_map := idPut (initState pgEmpty).attempt_id_map exAttempt1.id
            (initState pgEmpty).nextUuid,
          stats := { (initState pgEmpty).stats with
            errors := (initState pgEmpty).stats.errors ++
              [MigError.attemptMissing exAttempt1.id] } } :=
  ⟨Or.inl rfl,
   c2_missing_fk_dropped_with_one_error.2.1 dt0 (fun _ => true) 0 (initState pgEmpty)
     exAttempt1 [] (Or.inl rfl)⟩

/-! ## Event lemmas for the remaining nine table steps, and the clear
step. -/

theorem invite_codes_loop_events (now : Datetime) (ok : Nat → Bool) :
    ∀ (rows : List SqliteInviteCode) (i : Nat) (st : MigratorState),
      ∀ e ∈ (invite_codes_loop now ok i rows st).2, rowEvOk "invite_codes" e := by
  intro rows
  induction rows with
  | nil => intro i st e he; simp [invite_codes_loop] at he
  | cons row rest ih =>
    intro i st e he
    by_cases hok : ok i = true <;>
      simp only [invite_codes_loop, hok, Bool.false_eq_true, ite_true, ite_false,
        List.mem_cons] at he <;>
      rcases he with rfl | he2
    · simp [rowEvOk, rowTable]
    · exact ih _ _ e he2
    · simp [rowEvOk]
    · exact ih _ _ e he2

theorem patterns_loop_events (now : Datetime) (ok : Nat → Bool) :
    ∀ (rows : List SqlitePattern) (i : Nat) (st : MigratorState),
      ∀ e ∈ (patterns_loop now ok i rows st).2, rowEvOk "patterns" e := by
  intro rows
  induction rows with
  | nil => intro i st e he; simp [patterns_loop] at he
  | cons row rest ih =>
    intro i st e he
    by_cases hok : ok i = true <;>
      simp only [patterns_loop, hok, Bool.false_eq_true, ite_true, ite_false,
        List.mem_cons] at he <;>
      rcases he with rfl | he2
    · simp [rowEvOk, rowTable]
    · exact ih _ _ e he2
    · simp [rowEvOk]
    · exact ih _ _ e he2

theorem problems_loop_events (now : Datetime) (ok : Nat → Bool) :
    ∀ (rows : List SqliteProblem) (i : Nat) (st : MigratorState),
      ∀ e ∈ (problems_loop now ok i rows st).2, rowEvOk "problems" e := by
  intro rows
  induction rows with
  | nil => intro i st e he; simp [problems_loop] at he
  | cons row rest ih =>
    intro i st e he
    by_cases hok : ok i = true <;>
      simp only [problems_loop, hok, Bool.false_eq_true, ite_true, ite_false,
        List.mem_cons] at he <;>
      rcases he with rfl | he2
    · simp [rowEvOk, rowTable]
    · exact ih _ _ e he2
    · simp [rowEvOk]
    · exact ih _ _ e he2

theorem problem_patterns_loop_events (ok : Nat → Bool) :
    ∀ (rows : List SqliteProblemPattern) (i : Nat) (st : MigratorState),
      ∀ e ∈ (problem_patterns_loop ok i rows st).2, rowEvOk "problem_patterns" e := by
  intro rows
  induction rows with
  | nil => intro i st e he; simp [problem_patterns_loop] at he
  | cons row rest ih =>
    intro i st e he
    cases h1 : idGet st.problem_id_map row.problem_id with
    | none =>
      cases h2 : idGet st.pattern_id_map row.pattern_id <;>
        simp only [problem_patterns_loop, h1, h2] at he <;>
        exact ih _ _ e he
    | some pid =>
      cases h2 : idGet st.pattern_id_map row.pattern_id with
      | none =>
        simp only [problem_patterns_loop, h1, h2] at he
        exact ih _ _ e he
      | some patid =>
        by_cases hok : ok i = true <;>
          simp only [problem_patterns_loop, h1, h2, hok, Bool.false_eq_true,
            ite_true, ite_false, List.mem_cons] at he <;>
          rcases he with rfl | he2
        · simp [rowEvOk, rowTable]
        · exact ih _ _ e he2
        · simp [rowEvOk]
        · exact ih _ _ e he2

theorem sessions_loop_events (now : Datetime) (ok : Nat → Bool) :
    ∀ (rows : List SqliteSession) (i : Nat) (st : MigratorState),
      ∀ e ∈ (sessions_loop now ok i rows st).2, rowEvOk "sessions" e := by
  intro rows
  induction rows with
  | nil => intro i st e he; simp [sessions_loop] at he
  | cons row rest ih =>
    intro i st e he
    cases hu : idGet st.user_id_map row.user_id with
    | none =>
      simp only [sessions_loop, hu] at he
      exact ih _ _ e he
    | some uid =>
      by_cases hok : ok i = true <;>
        simp only [sessions_loop, hu, hok, Bool.false_eq_true, ite_true, ite_false,
          List.mem_cons] at he <;>
        rcases he with rfl | he2
      · simp [rowEvOk, rowTable]
      · exact ih _ _ e he2
      · simp [rowEvOk]
      · exact ih _ _ e he2

theorem session_problems_loop_events (ok : Nat → Bool) :
    ∀ (rows : List SqliteSessionProblem) (i : Nat) (st : MigratorState),
      ∀ e ∈ (session_problems_loop ok i rows st).2, rowEvOk "session_problems" e := by
  intro rows
  induction rows with
  | nil => intro i st e he; simp [session_problems_loop] at he
  | cons row rest ih =>
    intro i st e he
    cases h1 : idGet st.session_id_map row.session_id with
    | none =>
      cases h2 : idGet st.problem_id_map row.problem_id <;>
        simp only [session_problems_loop, h1, h2] at he <;>
        exact ih _ _ e he
    | some sid =>
      cases h2 : idGet st.problem_id_map row.problem_id with
      | none =>
        simp only [session_problems_loop, h1, h2] at he
        exact ih _ _ e he
      | some pid =>
        by_cases hok : ok i = true <;>
          simp only [session_problems_loop, h1, h2, hok, Bool.false_eq_true,
            ite_true, ite_false, List.mem_cons] at he <;>
          rcases he with rfl | he2
        · simp [rowEvOk, rowTable]
        · exact ih _ _ e he2
        · simp [rowEvOk]
        · exact ih _ _ e he2

theorem attempts_loop_events (now : Datetime) (ok : Nat → Bool) :
    ∀ (rows : List SqliteAttempt) (i : Nat) (st : MigratorState),
      ∀ e ∈ (attempts_loop now ok i rows st).2, rowEvOk "attempts" e := by
  intro rows
  induction rows with
  | nil => intro i st e he; simp [attempts_loop] at he
  | cons row rest ih =>
    intro i st e he
    cases h1 : idGet st.user_id_map row.user_id with
    | none =>
      cases h2 : idGet st.problem_id_map row.problem_id <;>
        simp only [attempts_loop, h1, h2] at he <;>
        exact ih _ _ e he
    | some uid =>
      cases h2 : idGet st.problem_id_map row.problem_id with
      | none =>
        simp only [attempts_loop, h1, h2] at he
        exact ih _ _ e he
      | some pid =>
        by_cases hok : ok i = true <;>
          simp only [attempts_loop, h1, h2, hok, Bool.false_eq_true,
            ite_true, ite_false, List.mem_cons] at he <;>
          rcases he with rfl | he2
        · simp [rowEvOk, rowTable]
        · exact ih _ _ e he2
        · simp [rowEvOk]
        · exact ih _ _ e he2

theorem user_problem_stats_loop_events (ok : Nat → Bool) :
    ∀ (rows : List SqliteUserProblemStat) (i : Nat) (st : MigratorState),
      ∀ e ∈ (user_problem_stats_loop ok i rows st).2, rowEvOk "user_problem_stats" e := by
  intro rows
  induction rows with
  | nil => intro i st e he; simp [user_problem_stats_loop] at he
  | cons row rest ih =>
    intro i st e he
    cases h1 : idGet st.user_id_map row.user_id with
    | none =>
      cases h2 : idGet st.problem_id_map row.problem_id <;>
        simp only [user_problem_stats_loop, h1, h2] at he <;>
        exact ih _ _ e he
    | some uid =>
      cases h2 : idGet st.problem_id_map row.problem_id with
      | none =>
        simp only [user_problem_stats_loop, h1, h2] at he
        exact ih _ _ e he
      | some pid =>
        by_cases hok : ok i = true <;>
          simp only [user_problem_stats_loop, h1, h2, hok, Bool.false_eq_true,
            ite_true, ite_false, List.mem_cons] at he <;>
          rcases he with rfl | he2
        · simp [rowEvOk, rowTable]
        · exact ih _ _ e he2
        · simp [rowEvOk]
        · exact ih _ _ e he2

theorem user_pattern_stats_loop_events (ok : Nat → Bool) :
    ∀ (rows : List SqliteUserPatternStat) (i : Nat) (st : MigratorState),
      ∀ e ∈ (user_pattern_stats_loop ok i rows st).2, rowEvOk "user_pattern_stats" e := by
  intro rows
  induction rows with
  | nil => intro i st e he; simp [user_pattern_stats_loop] at he
  | cons row rest ih =>
    intro i st e he
    cases h1 : idGet st.user_id_map row.user_id with
    | none =>
      cases h2 : idGet st.pattern_id_map row.pattern_id <;>
        simp only [user_pattern_stats_loop, h1, h2] at he <;>
        exact ih _ _ e he
    | some uid =>
      cases h2 : idGet st.pattern_id_map row.pattern_id with
      | none =>
        simp only [user_pattern_stats_loop, h1, h2] at he
        exact ih _ _ e he
      | some patid =>
        by_cases hok : ok i = true <;>
          simp only [user_pattern_stats_loop, h1, h2, hok, Bool.false_eq_true,
            ite_true, ite_false, List.mem_cons] at he <;>
          rcases he with rfl | he2
        · simp [rowEvOk, rowTable]
        · exact ih _ _ e he2
        · simp [rowEvOk]
        · exact ih _ _ e he2

theorem clear_loop_all_ok :
    ∀ (ts : List String) (i : Nat),
      clear_loop (fun _ => true) i ts = (ts.map MEvent.deleteFrom, true) := by
  intro ts
  induction ts with
  | nil => intro i; simp [clear_loop]
  | cons t rest ih => intro i; simp [clear_loop, ih]

theorem clear_postgres_tables_all_ok (st : MigratorState) :
    clear_postgres_tables (fun _ => true) st =
      (({ st with pg := { committed := [], pending := [] } },
        clear_tables.map MEvent.deleteFrom ++ [MEvent.commit]), true) := by
  simp [clear_postgres_tables, clear_loop_all_ok]

/-! ## Claim C3 -/

/-- C3: the clear-then-migrate schedule holds — the trace opens with the
ten DELETEs in reverse dependency order and their commit, followed by ten
consecutive step blocks in the order Users, InviteCodes, Patterns,
Problems, ProblemPatterns, Sessions, SessionProblems, Attempts,
UserProblemStats, UserPatternStats, each block containing only its own
table's row events and ending with that step's commit — but the claim's
skip-flag proviso is false: the statement below is proved with the skip
flag SET (`no_clear = true` in `main_run`), because `args.no_clear` is
parsed and then never consulted, so clearing happens unconditionally. -/
theorem c3_clear_and_step_order_ignores_skip_flag :
    ∀ (ins_ok : String → Nat → Bool) (now : Datetime) (db : SqliteDb) (pg0 : PgState),
      ∃ e1 e2 e3 e4 e5 e6 e7 e8 e9 e10 : List MEvent,
        (main_run true true true (fun _ => true) ins_ok now db pg0).trace =
          (clear_tables.map MEvent.deleteFrom ++ [MEvent.commit]) ++
            e1 ++ e2 ++ e3 ++ e4 ++ e5 ++ e6 ++ e7 ++ e8 ++ e9 ++ e10 ∧
        stepBlock "users" e1 ∧ stepBlock "invite_codes" e2 ∧
        stepBlock "patterns" e3 ∧ stepBlock "problems" e4 ∧
        stepBlock "problem_patterns" e5 ∧ stepBlock "sessions" e6 ∧
        stepBlock "session_problems" e7 ∧ stepBlock "attempts" e8 ∧
        stepBlock "user_problem_stats" e9 ∧ stepBlock "user_pattern_stats" e10 := by
  intro ins_ok now db pg0
  simp only [main_run, run_migration, clear_postgres_tables_all_ok, migrate_users,
    migrate_invite_codes, migrate_patterns, migrate_problems, migrate_problem_patterns,
    migrate_sessions, migrate_session_problems, migrate_attempts,
    migrate_user_problem_stats, migrate_user_pattern_stats, Bool.true_eq_false,
    if_false, reduceIte]
  exact ⟨_, _, _, _, _, _, _, _, _, _, rfl,
    ⟨_, rfl, users_loop_events now (ins_ok "users") _ _ _⟩,
    ⟨_, rfl, invite_codes_loop_events now (ins_ok "invite_codes") _ _ _⟩,
    ⟨_, rfl, patterns_loop_events now (ins_ok "patterns") _ _ _⟩,
    ⟨_, rfl, problems_loop_events now (ins_ok "problems") _ _ _⟩,
    ⟨_, rfl, problem_patterns_loop_events (ins_ok "problem_patterns") _ _ _⟩,
    ⟨_, rfl, sessions_loop_events now (ins_ok "sessions") _ _ _⟩,
    ⟨_, rfl, session_problems_loop_events (ins_ok "session_problems") _ _ _⟩,
    ⟨_, rfl, attempts_loop_events now (ins_ok "attempts") _ _ _⟩,
    ⟨_, rfl, user_problem_stats_loop_events (ins_ok "user_problem_stats") _ _ _⟩,
    ⟨_, rfl, user_pattern_stats_loop_events (ins_ok "user_pattern_stats") _ _ _⟩⟩

/-! ## Claim C4 -/

def exUserA : SqliteUser := ⟨1, "u1", "e1", "h", none, none, none⟩
def exUserB : SqliteUser := ⟨2, "u2", "e2", "h", none, none, none⟩
def exUserC : SqliteUser := ⟨3, "u3", "e3", "h", none, none, none⟩

/-- Three users whose middle INSERT will be rejected. -/
def exDb4 : SqliteDb := { emptyDb with users := [exUserA, exUserB, exUserC] }

/-- Oracle rejecting exactly the INSERT of the row at position 1. -/
def exOkFail1 : Nat → Bool := fun i => i != 1

/-- C4: a rejected INSERT appends one error, rolls the transaction back
(discarding the previously buffered uncommitted inserts of the table)
while the earlier success-count increments are retained in the stats, and
the row loop continues (shown for `users_loop` and for `attempts_loop`
with resolved foreign keys).  Concretely, in `exDb4` with the middle of
three INSERTs rejected, the reported count is 2 while only one row (the
third user) is durably committed — the success count exceeds the rows
present in the target. -/
theorem c4_rollback_discards_buffer_counts_retained :
    (∀ (now : Datetime) (ok : Nat → Bool) (i : Nat) (st : MigratorState)
        (row : SqliteUser) (rest : List SqliteUser),
        ok i = false →
        users_loop now ok i (row :: rest) st =
          ((users_loop now ok (i + 1) rest
              { st with nextUuid := st.nextUuid + 1,
                        user_id_map := idPut st.user_id_map row.id st.nextUuid,
                        stats := { st.stats with
                          errors := st.stats.errors ++ [MigError.userInsert row.username] },
                        pg := pgRollback st.pg }).1,
            MEvent.rollback ::
              (users_loop now ok (i + 1) rest
                { st with nextUuid := st.nextUuid + 1,
                          user_id_map := idPut st.user_id_map row.id st.nextUuid,
                          stats := { st.stats with
                            errors := st.stats.errors ++ [MigError.userInsert row.username] },
                          pg := pgRollback st.pg }).2))
    ∧ (∀ (now : Datetime) (ok : Nat → Bool) (i : Nat) (st : MigratorState)
        (row : SqliteAttempt) (rest : List SqliteAttempt) (uid pid : Nat),
        idGet st.user_id_map row.user_id = some uid →
        idGet st.problem_id_map row.problem_id = some pid →
        ok i = false →
        attempts_loop now ok i (row :: rest) st =
          ((attempts_loop now ok (i + 1) rest
              { st with nextUuid := st.nextUuid + 1,
                        attempt_id_map := idPut st.attempt_id_map row.id st.nextUuid,
                        stats := { st.stats with
                          errors := st.stats.errors ++ [MigError.attemptInsert row.id] },
                        pg := pgRollback st.pg }).1,
            MEvent.rollback ::
              (attempts_loop now ok (i + 1) rest
                { st with nextUuid := st.nextUuid + 1,
                          attempt_id_map := idPut st.attempt_id_map row.id st.nextUuid,
                          stats := { st.stats with
                            errors := st.stats.errors ++ [MigError.attemptInsert row.id] },
                          pg := pgRollback st.pg }).2))
    ∧ ((migrate_users dt0 exOkFail1 exDb4 (initState pgEmpty)).1.stats.users = 2 ∧
       (migrate_users dt0 exOkFail1 exDb4 (initState pgEmpty)).1.pg.committed =
         [PgRow.user (userTarget dt0 2 exUserC)] ∧
       (migrate_users dt0 exOkFail1 exDb4 (initState pgEmpty)).1.stats.errors =
         [MigError.userInsert "u2"] ∧
       (migrate_users dt0 exOkFail1 exDb4 (initState pgEmpty)).1.pg.committed.length <
         (migrate_users dt0 exOkFail1 exDb4 (initState pgEmpty)).1.stats.users) := by
  refine ⟨?_, ?_, rfl, rfl, rfl, by decide⟩
  · intro now ok i st row rest hok
    simp [users_loop, hok]
  · intro now ok i st row rest uid pid hu hp hok
    simp [attempts_loop, hu, hp, hok]

/-- Witness for `c4_rollback_discards_buffer_counts_retained`: the
rejected single user row of `exDb1` takes exactly the rollback step. -/
theorem c4_rollback_witness :
    ((fun _ : Nat => false) 0 = false) ∧
    users_loop dt0 (fun _ => false) 0 [exUserA] (initState pgEmpty) =
      ((users_loop dt0 (fun _ => false) (0 + 1) []
          { (initState pgEmpty) with
            nextUuid := (initState pgEmpty).nextUuid + 1,
            user_id_map := idPut (initState pgEmpty).user_id_map exUserA.id
              (initState pgEmpty).nextUuid,
            stats := { (initState pgEmpty).stats with
              errors := (initState pgEmpty).stats.errors ++
                [MigError.userInsert exUserA.username] },
            pg := pgRollback (initState pgEmpty).pg }).1,
        MEvent.rollback ::
          (users_loop dt0 (fun _ => false) (0 + 1) []
            { (initState pgEmpty) with
              nextUuid := (initState pgEmpty).nextUuid + 1,
              user_id_map := idPut (initState pgEmpty).user_id_map exUserA.id
                (initState pgEmpty).nextUuid,
              stats := { (initState pgEmpty).stats with
                errors := (initState pgEmpty).stats.errors ++
                  [MigError.userInsert exUserA.username] },
              pg := pgRollback (initState pgEmpty).pg }).2) :=
  ⟨rfl, c4_rollback_discards_buffer_counts_retained.1 dt0 (fun _ => false) 0
    (initState pgEmpty) exUserA [] rfl⟩

/-! ## Claim C5 -/

def exPPa : SqliteProblemPattern := ⟨2, 2⟩
def exPPb : SqliteProblemPattern := ⟨1, 1⟩

/-- Two problem-pattern rows stored in descending composite order. -/
def exDb5 : SqliteDb := { emptyDb with problem_patterns := [exPPa, exPPb] }

/-- C5 (counterexample): `problem_patterns` is read with a plain
`SELECT *` (no `ORDER BY`), i.e. in storage order; on `exDb5`, whose rows
are stored descending, the read order is not composite-key ascending, so
the claim that every table is read in a deterministic ascending order is
false. -/
theorem c5_read_order_counterexample :
    ¬ (fetch_problem_patterns exDb5).Pairwise (fun a b => ppLe a b = true) := by
  decide

/-- C5 (amended): the six tables with their own primary key are read in id
ascending order and `session_problems` in (session_id, order_index)
ascending order — each fetched list is sorted by the respective key and is
a permutation of the stored rows — but `problem_patterns`,
`user_problem_stats` and `user_pattern_stats` are read with no `ORDER BY`
at all, i.e. in whatever order the engine returns (storage order in this
model), so no deterministic ascending order is requested for them. -/
theorem c5_read_order_amended :
    ∀ db : SqliteDb,
      ((fetch_users db).Pairwise (fun a b => userLe a b = true) ∧
        List.Perm (fetch_users db) db.users) ∧
      ((fetch_invite_codes db).Pairwise (fun a b => inviteLe a b = true) ∧
        List.Perm (fetch_invite_codes db) db.invite_codes) ∧
      ((fetch_patterns db).Pairwise (fun a b => patternLe a b = true) ∧
        List.Perm (fetch_patterns db) db.patterns) ∧
      ((fetch_problems db).Pairwise (fun a b => problemLe a b = true) ∧
        List.Perm (fetch_problems db) db.problems) ∧
      ((fetch_sessions db).Pairwise (fun a b => sessionLe a b = true) ∧
        List.Perm (fetch_sessions db) db.sessions) ∧
      ((fetch_session_problems db).Pairwise (fun a b => spLe a b = true) ∧
        List.Perm (fetch_session_problems db) db.session_problems) ∧
      ((fetch_attempts db).Pairwise (fun a b => attemptLe a b = true) ∧
        List.Perm (fetch_attempts db) db.attempts) ∧
      (fetch_problem_patterns db = db.problem_patterns ∧
       fetch_user_problem_stats db = db.user_problem_stats ∧
       fetch_user_pattern_stats db = db.user_pattern_stats) := by
  intro db
  refine ⟨⟨?_, sortLe_perm _ _⟩, ⟨?_, sortLe_perm _ _⟩, ⟨?_, sortLe_perm _ _⟩,
    ⟨?_, sortLe_perm _ _⟩, ⟨?_, sortLe_perm _ _⟩, ⟨?_, sortLe_perm _ _⟩,
    ⟨?_, sortLe_perm _ _⟩, rfl, rfl, rfl⟩
  · exact sortLe_pairwise userLe (by intro a b; simp [userLe]; omega)
      (by intro a b c; simp [userLe]; omega) _
  · exact sortLe_pairwise inviteLe (by intro a b; simp [inviteLe]; omega)
      (by intro a b c; simp [inviteLe]; omega) _
  · exact sortLe_pairwise patternLe (by intro a b; simp [patternLe]; omega)
      (by intro a b c; simp [patternLe]; omega) _
  · exact sortLe_pairwise problemLe (by intro a b; simp [problemLe]; omega)
      (by intro a b c; simp [problemLe]; omega) _
  · exact sortLe_pairwise sessionLe (by intro a b; simp [sessionLe]; omega)
      (by intro a b c; simp [sessionLe]; omega) _
  · exact sortLe_pairwise spLe (by intro a b; simp [spLe]; omega)
      (by intro a b c; simp [spLe]; omega) _
  · exact sortLe_pairwise attemptLe (by intro a b; simp [attemptLe]; omega)
      (by intro a b c; simp [attemptLe]; omega) _

/-! ## Claim C6 -/

def exUser6 : SqliteUser := ⟨1, "u6", "e6", "h", none, none, none⟩

/-- C6 (counterexample): a null source `created_at` does NOT yield an
absent target value — the users INSERT passes
`parse_sqlite_datetime(...) or datetime.utcnow()`, so the target
`created_at` is the current time, never NULL. -/
theorem c6_null_timestamp_counterexample :
    exUser6.created_at = none ∧ (userTarget dt0 0 exUser6).created_at ≠ none :=
  ⟨rfl, by simp [userTarget, parse_sqlite_datetime, pyDtOr, exUser6]⟩

/-- C6 (amended): `parse_sqlite_datetime` maps null, empty and unparseable
input to `none`; every nullable timestamp column (`used_at`, the session
and attempt timer/started/completed columns, `last_attempt_at`,
`next_review_at`) receives that parse result directly, hence is absent for
null/empty/unparseable input; the `created_at`/`performed_at` columns
instead fall back to the current time (`now`) and are never absent; and no
timestamp value can make a row's transform fail — for every user row,
whatever its `created_at`, the row is inserted and counted whenever the
target accepts the INSERT. -/
theorem c6_timestamp_conversion_amended :
    (parse_sqlite_datetime none = none) ∧
    (parse_sqlite_datetime (some "") = none) ∧
    (∀ s : String, strptime_ymd_hms s = none → parse_sqlite_datetime (some s) = none) ∧
    (∀ (now : Datetime) (n : Nat) (cid : Option Nat) (row : SqliteInviteCode),
      (inviteTarget now n cid row).used_at = parse_sqlite_datetime row.used_at) ∧
    (∀ (now : Datetime) (n uid : Nat) (row : SqliteSession),
      (sessionTarget now n uid row).timer_last_updated_at =
        parse_sqlite_datetime row.timer_last_updated_at ∧
      (sessionTarget now n uid row).started_at = parse_sqlite_datetime row.started_at ∧
      (sessionTarget now n uid row).completed_at = parse_sqlite_datetime row.completed_at) ∧
    (∀ (now : Datetime) (n uid pid : Nat) (sid : Option Nat) (row : SqliteAttempt),
      (attemptTarget now n uid pid sid row).timer_last_updated_at =
        parse_sqlite_datetime row.timer_last_updated_at ∧
      (attemptTarget now n uid pid sid row).started_at =
        parse_sqlite_datetime row.started_at) ∧
    (∀ (uid pid : Nat) (row : SqliteUserProblemStat),
      (upsTarget uid pid row).last_attempt_at = parse_sqlite_datetime row.last_attempt_at ∧
      (upsTarget uid pid row).next_review_at = parse_sqlite_datetime row.next_review_at) ∧
    (∀ (now : Datetime) (n : Nat) (row : SqliteUser),
      (userTarget now n row).created_at =
        some (pyDtOr (parse_sqlite_datetime row.created_at) now)) ∧
    (∀ (now : Datetime) (n : Nat) (row : SqliteUser), row.created_at = none →
      (userTarget now n row).created_at = some now) ∧
    (∀ (now : Datetime) (n uid pid : Nat) (sid : Option Nat) (row : SqliteAttempt),
      row.performed_at = none →
      (attemptTarget now n uid pid sid row).performed_at = some now) ∧
    (∀ (now : Datetime) (ok : Nat → Bool) (i : Nat) (st : MigratorState)
        (row : SqliteUser) (rest : List SqliteUser),
      ok i = true →
      users_loop now ok i (row :: rest) st =
        ((users_loop now ok (i + 1) rest
            { st with nextUuid := st.nextUuid + 1,
                      user_id_map := idPut st.user_id_map row.id st.nextUuid,
                      pg := pgBuffer st.pg (PgRow.user (userTarget now st.nextUuid row)),
                      stats := { st.stats with users := st.stats.users + 1 } }).1,
          MEvent.insert (PgRow.user (userTarget now st.nextUuid row)) ::
            (users_loop now ok (i + 1) rest
              { st with nextUuid := st.nextUuid + 1,
                        user_id_map := idPut st.user_id_map row.id st.nextUuid,
                        pg := pgBuffer st.pg (PgRow.user (userTarget now st.nextUuid row)),
                        stats := { st.stats with users := st.stats.users + 1 } }).2)) := by
  refine ⟨rfl, rfl, ?_, fun now n cid row => rfl, fun now n uid row => ⟨rfl, rfl, rfl⟩,
    fun now n uid pid sid row => ⟨rfl, rfl⟩, fun uid pid row => ⟨rfl, rfl⟩,
    fun now n row => rfl, ?_, ?_, ?_⟩
  · intro s h
    simp [parse_sqlite_datetime, h]
  · intro now n row h
    simp [userTarget, h, parse_sqlite_datetime, pyDtOr]
  · intro now n uid pid sid row h
    simp [attemptTarget, h, parse_sqlite_datetime, pyDtOr]
  · intro now ok i st row rest hok
    simp [users_loop, hok]

/-- Witness for `c6_timestamp_conversion_amended`: the unparseable string
is mapped to an absent value. -/
theorem c6_timestamp_witness :
    strptime_ymd_hms "not-a-date" = none ∧
    parse_sqlite_datetime (some "not-a-date") = none :=
  ⟨rfl, c6_timestamp_conversion_amended.2.2.1 "not-a-date" rfl⟩

/-! ## Claim C7 -/

theorem clear_loop_events (del_ok : Nat → Bool) :
    ∀ (ts : List String) (i : Nat),
      ∀ e ∈ (clear_loop del_ok i ts).1, ∃ t, e = MEvent.deleteFrom t := by
  intro ts
  induction ts with
  | nil => intro i e he; simp [clear_loop] at he
  | cons t rest ih =>
    intro i e he
    by_cases h : del_ok i = true <;>
      simp only [clear_loop, h, Bool.false_eq_true, ite_true, ite_false,
        List.mem_cons] at he
    · rcases he with rfl | he2
      · exact ⟨t, rfl⟩
      · exact ih _ e he2
    · simp at he

/-- C7 (counterexample): the claim that both store connections are closed
on EVERY exit path is false — when connecting to PostgreSQL fails, the
script calls `sys.exit(1)` from `connect_postgres`, before the
`try/finally` that closes the connections, so the already-open SQLite
connection is never closed by the program. -/
theorem c7_connect_failure_leaves_sqlite_open :
    (run_migration true false (fun _ => true) (fun _ _ => true) dt0 emptyDb
      pgEmpty).sqliteClosed = false ∧
    (run_migration true false (fun _ => true) (fun _ _ => true) dt0 emptyDb
      pgEmpty).exitKind = RunExit.connectExit :=
  ⟨rfl, rfl⟩

/-- C7 (amended): a store connection failure terminates the run at once
with no SQL executed and no table processed, but without closing either
connection (the process exits before the `finally`); a truncation failure
is fatal — the transaction is rolled back leaving the target untouched, no
INSERT is ever executed, and both connections ARE closed; and on the
successful path both connections are closed as well. -/
theorem c7_fatal_paths_and_cleanup_amended :
    (∀ (del_ok : Nat → Bool) (ins_ok : String → Nat → Bool) (now : Datetime)
        (db : SqliteDb) (pg0 : PgState),
      run_migration true false del_ok ins_ok now db pg0 =
        { state := initState pg0, trace := [], exitKind := RunExit.connectExit,
          sqliteClosed := false, pgClosed := false }) ∧
    (∀ (pg_ok : Bool) (del_ok : Nat → Bool) (ins_ok : String → Nat → Bool)
        (now : Datetime) (db : SqliteDb) (pg0 : PgState),
      run_migration false pg_ok del_ok ins_ok now db pg0 =
        { state := initState pg0, trace := [], exitKind := RunExit.connectExit,
          sqliteClosed := false, pgClosed := false }) ∧
    (∀ (del_ok : Nat → Bool) (ins_ok : String → Nat → Bool) (now : Datetime)
        (db : SqliteDb) (pg0 : PgState),
      (clear_loop del_ok 0 clear_tables).2 = false →
      run_migration true true del_ok ins_ok now db pg0 =
        { state := initState pg0,
          trace := (clear_loop del_ok 0 clear_tables).1 ++ [MEvent.rollback],
          exitKind := RunExit.fatal, sqliteClosed := true, pgClosed := true } ∧
      (∀ e ∈ (clear_loop del_ok 0 clear_tables).1 ++ [MEvent.rollback],
        ∀ r : PgRow, e ≠ MEvent.insert r)) ∧
    (∀ (ins_ok : String → Nat → Bool) (now : Datetime) (db : SqliteDb) (pg0 : PgState),
      (run_migration true true (fun _ => true) ins_ok now db pg0).sqliteClosed = true ∧
      (run_migration true true (fun _ => true) ins_ok now db pg0).pgClosed = true ∧
      (run_migration true true (fun _ => true) ins_ok now db pg0).exitKind =
        RunExit.success) := by
  refine ⟨fun del_ok ins_ok now db pg0 => rfl, fun pg_ok del_ok ins_ok now db pg0 => rfl,
    ?_, ?_⟩
  · intro del_ok ins_ok now db pg0 h
    constructor
    · simp [run_migration, clear_postgres_tables, h]
    · intro e he r
      rcases List.mem_append.mp he with he2 | he2
      · rcases clear_loop_events del_ok clear_tables 0 e he2 with ⟨t, rfl⟩
        simp
      · simp only [List.mem_singleton] at he2
        subst he2
        simp
  · intro ins_ok now db pg0
    simp [run_migration, clear_postgres_tables_all_ok]

/-- Witness for `c7_fatal_paths_and_cleanup_amended`: a run whose very
first DELETE fails rolls back, executes no INSERT and closes both
connections. -/
theorem c7_fatal_paths_witness :
    ((clear_loop (fun _ => false) 0 clear_tables).2 = false) ∧
    (run_migration true true (fun _ => false) (fun _ _ => true) dt0 emptyDb pgEmpty =
      { state := initState pgEmpty,
        trace := (clear_loop (fun _ => false) 0 clear_tables).1 ++ [MEvent.rollback],
        exitKind := RunExit.fatal, sqliteClosed := true, pgClosed := true } ∧
     (∀ e ∈ (clear_loop (fun _ => false) 0 clear_tables).1 ++ [MEvent.rollback],
        ∀ r : PgRow, e ≠ MEvent.insert r)) :=
  ⟨rfl, c7_fatal_paths_and_cleanup_amended.2.2.1 (fun _ => false) (fun _ _ => true)
    dt0 emptyDb pgEmpty rfl⟩

/-! ## Claim C8 -/

/-- A user row with a blank role. -/
def exUser8 : SqliteUser := ⟨2, "u8", "e8", "h", some "", some 1, none⟩

/-- C8: an absent or blank role migrates as the fixed default `"user"`,
an absent or blank attempt status migrates as the fixed default
`"completed"`, and a blank-role user row is still inserted and counted as
a success with no error recorded whenever the target accepts the
INSERT. -/
theorem c8_role_and_status_defaults :
    (∀ (now : Datetime) (n : Nat) (row : SqliteUser),
      (row.role = none ∨ row.role = some "") → (userTarget now n row).role = "user") ∧
    (∀ (now : Datetime) (n uid pid : Nat) (sid : Option Nat) (row : SqliteAttempt),
      (row.status = none ∨ row.status = some "") →
      (attemptTarget now n uid pid sid row).status = "completed") ∧
    (∀ (now : Datetime) (ok : Nat → Bool) (i : Nat) (st : MigratorState)
        (row : SqliteUser) (rest : List SqliteUser),
      (row.role = none ∨ row.role = some "") → ok i = true →
      users_loop now ok i (row :: rest) st =
        ((users_loop now ok (i + 1) rest
            { st with nextUuid := st.nextUuid + 1,
                      user_id_map := idPut st.user_id_map row.id st.nextUuid,
                      pg := pgBuffer st.pg (PgRow.user (userTarget now st.nextUuid row)),
                      stats := { st.stats with users := st.stats.users + 1 } }).1,
          MEvent.insert (PgRow.user (userTarget now st.nextUuid row)) ::
            (users_loop now ok (i + 1) rest
              { st with nextUuid := st.nextUuid + 1,
                        user_id_map := idPut st.user_id_map row.id st.nextUuid,
                        pg := pgBuffer st.pg (PgRow.user (userTarget now st.nextUuid row)),
                        stats := { st.stats with users := st.stats.users + 1 } }).2)) := by
  refine ⟨?_, ?_, ?_⟩
  · intro now n row h
    rcases h with h | h <;> simp [userTarget, pyStrOr, h]
  · intro now n uid pid sid row h
    rcases h with h | h <;> simp [attemptTarget, pyStrOr, h]
  · intro now ok i st row rest _ hok
    simp [users_loop, hok]

/-- Witness for `c8_role_and_status_defaults`: the blank-role user row
`exUser8` is migrated with role `"user"`. -/
theorem c8_role_default_witness :
    (exUser8.role = none ∨ exUser8.role = some "") ∧
    (userTarget dt0 0 exUser8).role = "user" :=
  ⟨Or.inr rfl, c8_role_and_status_defaults.1 dt0 0 exUser8 (Or.inr rfl)⟩

/-! ## Claim C9 -/

/-- C9: the boolean-like columns (`users.is_active`,
`invite_codes.is_used`, `session_problems.is_completed`) are normalised by
Python `bool(...)`: a source value of 1 yields true, 0 yields false, and
an absent value yields false — the default the conversion implements. -/
theorem c9_boolean_normalisation :
    (pyBool (some 1) = true ∧ pyBool (some 0) = false ∧ pyBool none = false) ∧
    (∀ (now : Datetime) (n : Nat) (row : SqliteUser),
      (userTarget now n row).is_active = pyBool row.is_active) ∧
    (∀ (now : Datetime) (n : Nat) (cid : Option Nat) (row : SqliteInviteCode),
      (inviteTarget now n cid row).is_used = pyBool row.is_used) ∧
    (∀ (sid pid : Nat) (row : SqliteSessionProblem),
      (spTarget sid pid row).is_completed = pyBool row.is_completed) ∧
    (∀ (now : Datetime) (n : Nat) (row : SqliteUser),
      (row.is_active = some 1 → (userTarget now n row).is_active = true) ∧
      (row.is_active = some 0 → (userTarget now n row).is_active = false) ∧
      (row.is_active = none → (userTarget now n row).is_active = false)) := by
  refine ⟨⟨rfl, rfl, rfl⟩, fun now n row => rfl, fun now n cid row => rfl,
    fun sid pid row => rfl, ?_⟩
  intro now n row
  refine ⟨?_, ?_, ?_⟩ <;> intro h <;> simp [userTarget, pyBool, h]

/-- Witness for `c9_boolean_normalisation`: `exUser1` carries
`is_active = 1` and is migrated with `is_active = true`. -/
theorem c9_boolean_witness :
    exUser1.is_active = some 1 ∧ (userTarget dt0 0 exUser1).is_active = true :=
  ⟨rfl, (c9_boolean_normalisation.2.2.2.2 dt0 0 exUser1).1 rfl⟩

/-! ## Claim C10 -/

/-- An invite code whose creator reference points at a user that was never
migrated. -/
def exInvite1 : SqliteInviteCode := ⟨1, "code1", some 7, none, none, none⟩

/-- C10: for the two optional foreign keys — the invite code's creator and
the attempt's session — a non-null source value with no entry in the
corresponding id map is silently replaced by NULL: the row is still
inserted (with `none` in that column), the table's success counter is
incremented, and no error is appended. -/
theorem c10_optional_fk_silently_nulled :
    (∀ (now : Datetime) (ok : Nat → Bool) (i : Nat) (st : MigratorState)
        (row : SqliteInviteCode) (rest : List SqliteInviteCode) (v : Int),
      row.created_by_user_id = some v →
      idGet st.user_id_map v = none →
      ok i = true →
      invite_codes_loop now ok i (row :: rest) st =
        ((invite_codes_loop now ok (i + 1) rest
            { st with nextUuid := st.nextUuid + 1,
                      invite_code_id_map := idPut st.invite_code_id_map row.id st.nextUuid,
                      pg := pgBuffer st.pg
                        (PgRow.inviteCode (inviteTarget now st.nextUuid none row)),
                      stats := { st.stats with invite_codes := st.stats.invite_codes + 1 } }).1,
          MEvent.insert (PgRow.inviteCode (inviteTarget now st.nextUuid none row)) ::
            (invite_codes_loop now ok (i + 1) rest
              { st with nextUuid := st.nextUuid + 1,
                        invite_code_id_map := idPut st.invite_code_id_map row.id st.nextUuid,
                        pg := pgBuffer st.pg
                          (PgRow.inviteCode (inviteTarget now st.nextUuid none row)),
                        stats := { st.stats with invite_codes := st.stats.invite_codes + 1 } }).2))
    ∧ (∀ (now : Datetime) (ok : Nat → Bool) (i : Nat) (st : MigratorState)
        (row : SqliteAttempt) (rest : List SqliteAttempt) (uid pid : Nat) (v : Int),
      idGet st.user_id_map row.user_id = some uid →
      idGet st.problem_id_map row.problem_id = some pid →
      row.session_id = some v →
      idGet st.session_id_map v = none →
      ok i = true →
      attempts_loop now ok i (row :: rest) st =
        ((attempts_loop now ok (i + 1) rest
            { st with nextUuid := st.nextUuid + 1,
                      attempt_id_map := idPut st.attempt_id_map row.id st.nextUuid,
                      pg := pgBuffer st.pg
                        (PgRow.attempt (attemptTarget now st.nextUuid uid pid none row)),
                      stats := { st.stats with attempts := st.stats.attempts + 1 } }).1,
          MEvent.insert (PgRow.attempt (attemptTarget now st.nextUuid uid pid none row)) ::
            (attempts_loop now ok (i + 1) rest
              { st with nextUuid := st.nextUuid + 1,
                        attempt_id_map := idPut st.attempt_id_map row.id st.nextUuid,
                        pg := pgBuffer st.pg
                          (PgRow.attempt (attemptTarget now st.nextUuid uid pid none row)),
                        stats := { st.stats with attempts := st.stats.attempts + 1 } }).2)) := by
  constructor
  · intro now ok i st row rest v hv hm hok
    rcases eq_or_ne v 0 with hv0 | hv0
    · subst hv0
      simp [invite_codes_loop, hv, hok, pyIntTruthy]
    · simp [invite_codes_loop, hv, hok, pyIntTruthy, hv0, hm]
  · intro now ok i st row rest uid pid v hu hp hv hm hok
    rcases eq_or_ne v 0 with hv0 | hv0
    · subst hv0
      simp [attempts_loop, hu, hp, hv, hok, pyIntTruthy]
    · simp [attempts_loop, hu, hp, hv, hok, pyIntTruthy, hv0, hm]

/-- Witness for `c10_optional_fk_silently_nulled`: `exInvite1` names
creator 7, which has no mapping; the row is inserted with a NULL creator
and counted. -/
theorem c10_optional_fk_witness :
    exInvite1.created_by_user_id = some 7 ∧
    idGet (initState pgEmpty).user_id_map 7 = none ∧
    invite_codes_loop dt0 (fun _ => true) 0 [exInvite1] (initState pgEmpty) =
      ((invite_codes_loop dt0 (fun _ => true) (0 + 1) []
          { (initState pgEmpty) with
            nextUuid := (initState pgEmpty).nextUuid + 1,
            invite_code_id_map := idPut (initState pgEmpty).invite_code_id_map
              exInvite1.id (initState pgEmpty).nextUuid,
            pg := pgBuffer (initState pgEmpty).pg
              (PgRow.inviteCode (inviteTarget dt0 (initState pgEmpty).nextUuid none exInvite1)),
            stats := { (initState pgEmpty).stats with
              invite_codes := (initState pgEmpty).stats.invite_codes + 1 } }).1,
        MEvent.insert
          (PgRow.inviteCode (inviteTarget dt0 (initState pgEmpty).nextUuid none exInvite1)) ::
          (invite_codes_loop dt0 (fun _ => true) (0 + 1) []
            { (initState pgEmpty) with
              nextUuid := (initState pgEmpty).nextUuid + 1,
              invite_code_id_map := idPut (initState pgEmpty).invite_code_id_map
                exInvite1.id (initState pgEmpty).nextUuid,
              pg := pgBuffer (initState pgEmpty).pg
                (PgRow.inviteCode (inviteTarget dt0 (initState pgEmpty).nextUuid none exInvite1)),
              stats := { (initState pgEmpty).stats with
                invite_codes := (initState pgEmpty).stats.invite_codes + 1 } }).2) :=
  ⟨rfl, rfl,
   c10_optional_fk_silently_nulled.1 dt0 (fun _ => true) 0 (initState pgEmpty)
     exInvite1 [] 7 rfl rfl rfl⟩

end Reforge
